import Mathlib

/-!
Verification of the rcdevice request/response engine (`src/main/io/rcdevice.c`).

The engine keeps a fixed-capacity ring (`rcdeviceWaitingResponseQueue`) of
in-flight request contexts, transmits frames over a serial channel, reassembles
replies byte-at-a-time into the head context, validates them against one of two
CRC schemes, retries on timeout and finally reports an outcome through a
caller-supplied callback.

Shallow embedding conventions:
* C `uint8_t` / `uint32_t` arithmetic is `Nat` with explicit `% 256` /
  `% 2^32` where the source truncates; `int` fields (`maxRetryTimes`) are `Int`.
* the serial channel is explicit: incoming bytes are a `List Nat` consumed by
  `rcdeviceReceive`, outgoing writes and callback invocations are recorded as a
  trace of `RcdeviceEvent`s (a callback is an external function pointer, so it
  is modelled by the observable fact that it was invoked, with the command and
  result it would see; `parserFunc != NULL` becomes the flag `hasParser`).
* in-place mutation through the pointer returned by
  `rcdeviceRespCtxQueuePeekFront` becomes an explicit write-back of the head
  slot (`rcdeviceQueueSetHead`).
* `millis()` is a parameter `now`.
-/

namespace Rcdevice

/-- Modelled from the spec: the fixed capacity of the pending-request ring
(macro `MAX_WAITING_RESPONSES` from `rcdevice.h`, a header that is not among
the provided sources; the spec fixes only that the capacity is a constant, so
we pick a representative positive value). -/
def MAX_WAITING_RESPONSES : Nat := 5

/-- Modelled from the spec: the fixed capacity of a context's receive buffer
(`recvBuf`, sized by a compile-time constant in `rcdevice.h`, not among the
provided sources; the spec fixes only that it is a fixed-size inline buffer). -/
def RCDEVICE_PROTOCOL_MAX_PACKET_SIZE : Nat := 64

/-- Modelled from the spec: the fixed preamble byte of an outgoing frame
(`RCDEVICE_PROTOCOL_HEADER`, defined in the missing header; the spec's wire
format section gives `0x00` as the preamble). -/
def RCDEVICE_PROTOCOL_HEADER : Nat := 0x00

/-- Modelled from the spec: the legacy protocol tag
(`RCDEVICE_PROTOCOL_RCSPLIT_VERSION`, an enum from the missing header;
only its distinctness from the 1.0 tag matters). -/
def RCDEVICE_PROTOCOL_RCSPLIT_VERSION : Nat := 0

/-- Modelled from the spec: the current protocol tag
(`RCDEVICE_PROTOCOL_VERSION_1_0`, an enum from the missing header). -/
def RCDEVICE_PROTOCOL_VERSION_1_0 : Nat := 1

/-- Modelled from the spec: response outcome codes (`rcdeviceResponseStatus_e`
from the missing header): success. -/
def RCDEVICE_RESP_SUCCESS : Nat := 0

/-- Modelled from the spec: response outcome code for a failed integrity
check. -/
def RCDEVICE_RESP_INCORRECT_CRC : Nat := 1

/-- Modelled from the spec: response outcome code for an exhausted retry
budget. -/
def RCDEVICE_RESP_TIMEOUT : Nat := 2

/-- Modelled from the spec: command opcodes (from the missing header); the
engine only compares them for equality against the static length table. -/
def RCDEVICE_PROTOCOL_COMMAND_GET_DEVICE_INFO : Nat := 0x00

/-- Modelled from the spec: camera-control opcode (fire-and-forget). -/
def RCDEVICE_PROTOCOL_COMMAND_CAMERA_CONTROL : Nat := 0x01

/-- Modelled from the spec: 5-key simulation press opcode. -/
def RCDEVICE_PROTOCOL_COMMAND_5KEY_SIMULATION_PRESS : Nat := 0x02

/-- Modelled from the spec: 5-key simulation release opcode. -/
def RCDEVICE_PROTOCOL_COMMAND_5KEY_SIMULATION_RELEASE : Nat := 0x03

/-- Modelled from the spec: 5-key connection opcode. -/
def RCDEVICE_PROTOCOL_COMMAND_5KEY_CONNECTION : Nat := 0x04

/-- One more than the largest value of the C type `timeUs_t`/`uint32_t`;
additions into such variables wrap modulo this constant. -/
def UINT32_LIMIT : Nat := 4294967296

/-- Observable actions of the engine: a write of frame bytes to the serial
channel, or an invocation of a context's completion callback (identified by
the context's command byte together with the `result` code the callback
sees). -/
inductive RcdeviceEvent where
  | send (frame : List Nat)
  | callback (command : Nat) (result : Nat)
  deriving DecidableEq, Repr

/-- `rcdeviceResponseParseContext_t`: the bookkeeping record for one in-flight
request.  `recvBuf` is the fixed receive buffer (a total function standing for
the C array), `hasParser` stands for `parserFunc != NULL` and `deviceOpen` for
`device->serialPort != NULL`. -/
structure rcdeviceResponseParseContext where
  command : Nat
  paramData : List Nat
  paramDataLen : Nat
  expectedRespLen : Nat
  recvBuf : Nat → Nat
  recvRespLen : Nat
  timeout : Nat
  maxRetryTimes : Int
  timeoutTimestamp : Nat
  protocolVer : Nat
  result : Nat
  hasParser : Bool
  deviceOpen : Bool
  deriving Inhabited

/-- `rcdeviceWaitingResponseQueue`: the fixed-capacity ring of pending request
contexts.  `buffer` is the backing array (a total function; only indices below
`MAX_WAITING_RESPONSES` are ever used by well-formed states). -/
structure rcdeviceWaitingResponseQueue where
  buffer : Nat → rcdeviceResponseParseContext
  headPos : Nat
  tailPos : Nat
  itemCount : Nat

/-- The static command → expected-response-length table
(`expectedResponsesLength`). -/
def expectedResponsesLength : List (Nat × Nat) :=
  [(RCDEVICE_PROTOCOL_COMMAND_GET_DEVICE_INFO, 5),
   (RCDEVICE_PROTOCOL_COMMAND_5KEY_SIMULATION_PRESS, 2),
   (RCDEVICE_PROTOCOL_COMMAND_5KEY_SIMULATION_RELEASE, 2),
   (RCDEVICE_PROTOCOL_COMMAND_5KEY_CONNECTION, 3)]

/-- `runcamDeviceGetRespLen`: first matching table entry, else 0. -/
def runcamDeviceGetRespLen (command : Nat) : Nat :=
  ((expectedResponsesLength.find? (fun p => p.1 == command)).map Prod.snd).getD 0

/-- `rcdeviceRespCtxQueuePushRespCtx`: push a copy of the context at `tailPos`;
fails without mutation when the ring is at capacity or `tailPos` is out of
range. (The C `queue == NULL` guard has no counterpart: the queue is passed by
value here.) -/
def rcdeviceRespCtxQueuePushRespCtx (queue : rcdeviceWaitingResponseQueue)
    (respCtx : rcdeviceResponseParseContext) :
    Bool × rcdeviceWaitingResponseQueue :=
  if queue.itemCount + 1 > MAX_WAITING_RESPONSES ∨
      queue.tailPos ≥ MAX_WAITING_RESPONSES then
    (false, queue)
  else
    (true,
      { buffer := fun i => if i = queue.tailPos then respCtx else queue.buffer i,
        headPos := queue.headPos,
        tailPos :=
          if queue.tailPos + 1 ≥ MAX_WAITING_RESPONSES then 0
          else queue.tailPos + 1,
        itemCount := queue.itemCount + 1 })

/-- `rcdeviceRespCtxQueuePeekFront`. -/
def rcdeviceRespCtxQueuePeekFront (queue : rcdeviceWaitingResponseQueue) :
    Option rcdeviceResponseParseContext :=
  if queue.itemCount = 0 ∨ queue.headPos ≥ MAX_WAITING_RESPONSES then none
  else some (queue.buffer queue.headPos)

/-- `rcdeviceRespCtxQueueShift`: pop the head context (returned alongside the
new queue state). -/
def rcdeviceRespCtxQueueShift (queue : rcdeviceWaitingResponseQueue) :
    Option rcdeviceResponseParseContext × rcdeviceWaitingResponseQueue :=
  if queue.itemCount = 0 ∨ queue.headPos ≥ MAX_WAITING_RESPONSES then
    (none, queue)
  else
    (some (queue.buffer queue.headPos),
      { queue with
        headPos :=
          if queue.headPos + 1 ≥ MAX_WAITING_RESPONSES then 0
          else queue.headPos + 1,
        itemCount := queue.itemCount - 1 })

/-- Write-back of the head slot: the C code mutates the head context in place
through the pointer returned by `rcdeviceRespCtxQueuePeekFront`; in the
embedding the updated context is stored back at `headPos`. -/
def rcdeviceQueueSetHead (queue : rcdeviceWaitingResponseQueue)
    (ctx : rcdeviceResponseParseContext) : rcdeviceWaitingResponseQueue :=
  { queue with
    buffer := fun i => if i = queue.headPos then ctx else queue.buffer i }

/-- Modelled from the spec: `crc8_dvb_s2` (implemented in `common/crc.c`,
which is not among the provided sources).  The spec describes it as the
reflected CRC-8 with the DVB-S2 polynomial, bit-loop computed; reflected means
the byte is folded in at the low end and the bit-reversed polynomial
(`0xD5` reversed = `0xAB`) is used on a right shift. -/
def crc8_dvb_s2 (crc a : Nat) : Nat :=
  (List.range 8).foldl
    (fun c _ => if c % 2 = 1 then (c / 2) ^^^ 0xAB else c / 2)
    ((crc ^^^ a) % 256)

/-- `calcCRCFromData`, folded over an explicit byte list: 8-bit CRC with
polynomial `0x31`, non-reflected, MSB-first, initial value 0.  `crc` is a
`uint8_t`, so every assignment truncates to one byte. -/
def calcCRCFromData (data : List Nat) : Nat :=
  data.foldl
    (fun crc b =>
      (List.range 8).foldl
        (fun c _ =>
          if c &&& 0x80 ≠ 0 then ((c <<< 1) ^^^ 0x31) % 256
          else (c <<< 1) % 256)
        ((crc ^^^ b) % 256))
    0

/-- The frame built by `runcamDeviceSendPacket` into the scratch buffer:
preamble, command byte, `paramDataLen` parameter bytes, then the CRC-8/DVB-S2
of everything so far (`crc8_dvb_s2_sbuf_append` starts from 0 and covers all
preceding bytes). -/
def runcamDevicePacketFrame (command : Nat) (paramData : List Nat)
    (paramDataLen : Nat) : List Nat :=
  let base := RCDEVICE_PROTOCOL_HEADER % 256 :: command % 256 ::
    paramData.take paramDataLen
  base ++ [base.foldl crc8_dvb_s2 0]

/-- `runcamDeviceSendPacket`: writes the encoded frame to the serial port, or
does nothing when the device's port is not open. -/
def runcamDeviceSendPacket (deviceOpen : Bool) (command : Nat)
    (paramData : List Nat) (paramDataLen : Nat) : List RcdeviceEvent :=
  if deviceOpen then
    [RcdeviceEvent.send (runcamDevicePacketFrame command paramData paramDataLen)]
  else []

/-- The context built by `runcamDeviceSendRequestAndWaitingResp` (the
`memset`-then-assign block): zeroed receive state, expected length from the
static table, absolute deadline `millis() + tiemout` (uint32 wrap-around),
protocol tag fixed to version 1.0, parameters copied. -/
def runcamDeviceMakeRespCtx (now : Nat) (deviceOpen : Bool) (commandID : Nat)
    (paramData : List Nat) (paramDataLen : Nat) (tiemout : Nat)
    (maxRetryTimes : Int) (hasParser : Bool) : rcdeviceResponseParseContext :=
  { command := commandID,
    maxRetryTimes := maxRetryTimes,
    expectedRespLen := runcamDeviceGetRespLen commandID,
    timeout := tiemout,
    timeoutTimestamp := (now + tiemout) % UINT32_LIMIT,
    protocolVer := RCDEVICE_PROTOCOL_VERSION_1_0,
    paramData := paramData.take paramDataLen,
    paramDataLen := paramDataLen,
    recvBuf := fun _ => 0,
    recvRespLen := 0,
    result := RCDEVICE_RESP_SUCCESS,
    hasParser := hasParser,
    deviceOpen := deviceOpen }

/-- `runcamDeviceSendRequestAndWaitingResp`: flush stale rx bytes (implicit
here: the incoming stream is supplied to `rcdeviceReceive` separately), build
the context, push it (the returned success flag is discarded by the source),
then transmit the frame unconditionally. -/
def runcamDeviceSendRequestAndWaitingResp (queue : rcdeviceWaitingResponseQueue)
    (now : Nat) (deviceOpen : Bool) (commandID : Nat) (paramData : List Nat)
    (paramDataLen : Nat) (tiemout : Nat) (maxRetryTimes : Int)
    (hasParser : Bool) : rcdeviceWaitingResponseQueue × List RcdeviceEvent :=
  let responseCtx := runcamDeviceMakeRespCtx now deviceOpen commandID paramData
    paramDataLen tiemout maxRetryTimes hasParser
  let queue' := (rcdeviceRespCtxQueuePushRespCtx queue responseCtx).2
  (queue', runcamDeviceSendPacket deviceOpen commandID paramData paramDataLen)

/-- `getWaitingResponse`: the timeout/retry supervisor.  It peeks the head
context (the peek guard `itemCount = 0 ∨ headPos ≥ MAX_WAITING_RESPONSES` is
inlined so that the head slot is available for the write-backs below) and
then loops: while the head's nonzero deadline has passed, either resend and
return no receivable head (`respCtx = NULL; break`), or finalize the head as
timed out, pop it and re-examine the new head.  The returned triple is the
mutated queue, the receivable head (if any) and the emitted events. -/
def getWaitingResponse (queue : rcdeviceWaitingResponseQueue) (now : Nat) :
    rcdeviceWaitingResponseQueue × Option rcdeviceResponseParseContext ×
      List RcdeviceEvent :=
  if hq : queue.itemCount = 0 ∨ queue.headPos ≥ MAX_WAITING_RESPONSES then
    (queue, none, [])
  else
    let respCtx := queue.buffer queue.headPos
    if respCtx.timeoutTimestamp ≠ 0 ∧ now > respCtx.timeoutTimestamp then
      if respCtx.maxRetryTimes > 0 then
        (rcdeviceQueueSetHead queue
          { respCtx with
            timeoutTimestamp := (now + respCtx.timeout) % UINT32_LIMIT,
            maxRetryTimes := respCtx.maxRetryTimes - 1 },
         none,
         runcamDeviceSendPacket respCtx.deviceOpen respCtx.command
           respCtx.paramData respCtx.paramDataLen)
      else
        let r := getWaitingResponse
          (rcdeviceRespCtxQueueShift
            (rcdeviceQueueSetHead queue
              { respCtx with result := RCDEVICE_RESP_TIMEOUT })).2 now
        (r.1, r.2.1,
          (if respCtx.hasParser then
            [RcdeviceEvent.callback respCtx.command RCDEVICE_RESP_TIMEOUT]
           else []) ++ r.2.2)
    else (queue, some respCtx, [])
termination_by queue.itemCount
decreasing_by
  simp only [rcdeviceRespCtxQueueShift, rcdeviceQueueSetHead]
  rw [if_neg]
  · simp only []
    omega
  · simp only [not_or] at hq ⊢
    exact hq

/-- The checksum-validation block of `rcdeviceReceive` (run once
`recvRespLen == expectedRespLen`): the legacy variant swaps the tail byte into
the checksum slot and compares `calcCRCFromData` of the first four bytes to
the original fourth byte; the 1.0 variant folds `crc8_dvb_s2` over every
received byte and succeeds exactly when the running CRC is zero. -/
def rcdeviceReceiveVerify (ctx : rcdeviceResponseParseContext) :
    rcdeviceResponseParseContext :=
  if ctx.protocolVer = RCDEVICE_PROTOCOL_RCSPLIT_VERSION then
    let crcFromPacket := ctx.recvBuf 3
    let recvBuf' := fun i => if i = 3 then ctx.recvBuf 4 else ctx.recvBuf i
    let crc := calcCRCFromData ((List.range 4).map recvBuf')
    { ctx with
      recvBuf := recvBuf',
      result :=
        if crc = crcFromPacket then RCDEVICE_RESP_SUCCESS
        else RCDEVICE_RESP_INCORRECT_CRC }
  else if ctx.protocolVer = RCDEVICE_PROTOCOL_VERSION_1_0 then
    let crc := ((List.range ctx.recvRespLen).map ctx.recvBuf).foldl crc8_dvb_s2 0
    { ctx with
      result :=
        if crc = 0 then RCDEVICE_RESP_SUCCESS
        else RCDEVICE_RESP_INCORRECT_CRC }
  else ctx

/-- `rcdeviceReceive`: one poll.  Each loop iteration first runs the
supervisor; if it yields a receivable head and a byte is waiting, the byte is
appended at index `recvRespLen` of the head's buffer; on reaching the expected
length the frame is validated, the callback fires and the context is popped.
Returns the final queue, the event trace and the unread bytes. -/
def rcdeviceReceive (queue : rcdeviceWaitingResponseQueue) (now : Nat) :
    List Nat →
      rcdeviceWaitingResponseQueue × List RcdeviceEvent × List Nat
  | [] =>
    let g := getWaitingResponse queue now
    (g.1, g.2.2, [])
  | b :: rest =>
    let g := getWaitingResponse queue now
    match g.2.1 with
    | none => (g.1, g.2.2, b :: rest)
    | some respCtx =>
      let c := b % 256
      let ctx1 := { respCtx with
        recvBuf := fun i => if i = respCtx.recvRespLen then c else respCtx.recvBuf i,
        recvRespLen := respCtx.recvRespLen + 1 }
      if ctx1.recvRespLen = ctx1.expectedRespLen then
        let ctx2 := rcdeviceReceiveVerify ctx1
        let q2 := (rcdeviceRespCtxQueueShift (rcdeviceQueueSetHead g.1 ctx2)).2
        let r := rcdeviceReceive q2 now rest
        (r.1,
         g.2.2 ++
           (if ctx2.hasParser then
             [RcdeviceEvent.callback ctx2.command ctx2.result]
            else []) ++ r.2.1,
         r.2.2)
      else
        let r := rcdeviceReceive (rcdeviceQueueSetHead g.1 ctx1) now rest
        (r.1, g.2.2 ++ r.2.1, r.2.2)

/-- Scheduler harness: invoke the poll entry point `rcdeviceReceive` once per
listed time, with no incoming bytes, threading the queue through and
concatenating the event traces. -/
def rcdevicePollTimes (queue : rcdeviceWaitingResponseQueue) :
    List Nat → rcdeviceWaitingResponseQueue × List RcdeviceEvent
  | [] => (queue, [])
  | t :: ts =>
    let r := rcdeviceReceive queue t []
    let r2 := rcdevicePollTimes r.1 ts
    (r2.1, r.2.1 ++ r2.2)

/-- The ring state with no pending contexts (the zero-initialised global
`watingResponseQueue`). -/
def rcdeviceEmptyQueue : rcdeviceWaitingResponseQueue :=
  { buffer := fun _ => default, headPos := 0, tailPos := 0, itemCount := 0 }

/-- The logical FIFO content of the ring: `itemCount` contexts starting at
`headPos`, wrapping modulo the capacity. -/
def rcdeviceQueueList (queue : rcdeviceWaitingResponseQueue) :
    List rcdeviceResponseParseContext :=
  (List.range queue.itemCount).map
    (fun i => queue.buffer ((queue.headPos + i) % MAX_WAITING_RESPONSES))

/-- Structural well-formedness of the ring: indices in range, count within
capacity, and `tailPos` one past the last occupied slot. -/
def rcdeviceQueueWF (queue : rcdeviceWaitingResponseQueue) : Prop :=
  queue.headPos < MAX_WAITING_RESPONSES ∧
  queue.tailPos < MAX_WAITING_RESPONSES ∧
  queue.itemCount ≤ MAX_WAITING_RESPONSES ∧
  queue.tailPos = (queue.headPos + queue.itemCount) % MAX_WAITING_RESPONSES

/-- Drain the ring through `rcdeviceRespCtxQueueShift` until it reports
empty. -/
def rcdevicePopAll (queue : rcdeviceWaitingResponseQueue) :
    List rcdeviceResponseParseContext :=
  if hq : queue.itemCount = 0 ∨ queue.headPos ≥ MAX_WAITING_RESPONSES then []
  else
    queue.buffer queue.headPos ::
      rcdevicePopAll (rcdeviceRespCtxQueueShift queue).2
termination_by queue.itemCount
decreasing_by
  simp only [rcdeviceRespCtxQueueShift]
  rw [if_neg hq]
  simp only []
  omega

/-- Push each context in order through `rcdeviceRespCtxQueuePushRespCtx`. -/
def rcdevicePushAll (queue : rcdeviceWaitingResponseQueue)
    (ctxs : List rcdeviceResponseParseContext) : rcdeviceWaitingResponseQueue :=
  ctxs.foldl (fun q c => (rcdeviceRespCtxQueuePushRespCtx q c).2) queue

/-- A one-element ring holding `ctx` at slot 0 (the state produced by pushing
`ctx` onto the empty ring). -/
def rcdeviceSingletonQueue (ctx : rcdeviceResponseParseContext) :
    rcdeviceWaitingResponseQueue :=
  { buffer := fun i => if i = 0 then ctx else default,
    headPos := 0, tailPos := 1, itemCount := 1 }

/-- A poll schedule, relative to a head context with deadline `d` and timeout
`T`, on which every listed poll time finds the (nonzero) current deadline
already expired: the first time exceeds `d`, and each subsequent time exceeds
the deadline as reset by the retry at the previous time. -/
def rcdeviceExpiredSchedule (d T : Nat) : List Nat → Bool
  | [] => true
  | t :: ts =>
    decide (d ≠ 0) && decide (t > d) &&
      rcdeviceExpiredSchedule ((t + T) % UINT32_LIMIT) T ts

/-- A concrete in-flight context used to exhibit the retry/timeout behaviour:
deadline 5, timeout 10, one retry remaining, protocol version 1.0. -/
def rcdeviceDemoRetryCtx : rcdeviceResponseParseContext :=
  { command := 2, paramData := [9], paramDataLen := 1, expectedRespLen := 2,
    recvBuf := fun _ => 0, recvRespLen := 0, timeout := 10, maxRetryTimes := 1,
    timeoutTimestamp := 5, protocolVer := RCDEVICE_PROTOCOL_VERSION_1_0,
    result := RCDEVICE_RESP_SUCCESS, hasParser := true, deviceOpen := true }

/-- A concrete in-flight context awaiting a legacy (RCSPLIT) 5-byte reply:
no deadline (sentinel 0), expected length 5, parser registered. -/
def rcdeviceDemoRcsplitCtx : rcdeviceResponseParseContext :=
  { command := 3, paramData := [], paramDataLen := 0, expectedRespLen := 5,
    recvBuf := fun _ => 0, recvRespLen := 0, timeout := 0, maxRetryTimes := 0,
    timeoutTimestamp := 0, protocolVer := RCDEVICE_PROTOCOL_RCSPLIT_VERSION,
    result := RCDEVICE_RESP_SUCCESS, hasParser := true, deviceOpen := true }

/-- The per-context receive bound: the accumulation index stays strictly
below the expected response length, which fits in the receive buffer. -/
def rcdeviceCtxInv (c : rcdeviceResponseParseContext) : Prop :=
  c.recvRespLen < c.expectedRespLen ∧
  c.expectedRespLen ≤ RCDEVICE_PROTOCOL_MAX_PACKET_SIZE

/-! ### Basic lemmas about the ring operations -/

theorem shift_not_guard {queue : rcdeviceWaitingResponseQueue}
    (hq : ¬(queue.itemCount = 0 ∨ queue.headPos ≥ MAX_WAITING_RESPONSES)) :
    rcdeviceRespCtxQueueShift queue =
      (some (queue.buffer queue.headPos),
        { queue with
          headPos :=
            if queue.headPos + 1 ≥ MAX_WAITING_RESPONSES then 0
            else queue.headPos + 1,
          itemCount := queue.itemCount - 1 }) := by
  rw [rcdeviceRespCtxQueueShift, if_neg hq]

theorem shift_snd_eq {queue : rcdeviceWaitingResponseQueue}
    (hq : ¬(queue.itemCount = 0 ∨ queue.headPos ≥ MAX_WAITING_RESPONSES)) :
    (rcdeviceRespCtxQueueShift queue).2 =
      { queue with
        headPos := (queue.headPos + 1) % MAX_WAITING_RESPONSES,
        itemCount := queue.itemCount - 1 } := by
  rw [shift_not_guard hq]
  push_neg at hq
  have hmod : (if queue.headPos + 1 ≥ MAX_WAITING_RESPONSES then 0
      else queue.headPos + 1) = (queue.headPos + 1) % MAX_WAITING_RESPONSES := by
    simp only [MAX_WAITING_RESPONSES] at *
    split <;> omega
  rw [hmod]

theorem push_snd_eq {queue : rcdeviceWaitingResponseQueue}
    {ctx : rcdeviceResponseParseContext}
    (hq : ¬(queue.itemCount + 1 > MAX_WAITING_RESPONSES ∨
      queue.tailPos ≥ MAX_WAITING_RESPONSES)) :
    rcdeviceRespCtxQueuePushRespCtx queue ctx =
      (true,
        { buffer := fun i => if i = queue.tailPos then ctx else queue.buffer i,
          headPos := queue.headPos,
          tailPos := (queue.tailPos + 1) % MAX_WAITING_RESPONSES,
          itemCount := queue.itemCount + 1 }) := by
  rw [rcdeviceRespCtxQueuePushRespCtx, if_neg hq]
  push_neg at hq
  have hmod : (if queue.tailPos + 1 ≥ MAX_WAITING_RESPONSES then 0
      else queue.tailPos + 1) = (queue.tailPos + 1) % MAX_WAITING_RESPONSES := by
    simp only [MAX_WAITING_RESPONSES] at *
    split <;> omega
  rw [hmod]

theorem shift_snd_itemCount {queue : rcdeviceWaitingResponseQueue}
    (hq : ¬(queue.itemCount = 0 ∨ queue.headPos ≥ MAX_WAITING_RESPONSES)) :
    (rcdeviceRespCtxQueueShift queue).2.itemCount = queue.itemCount - 1 := by
  rw [shift_snd_eq hq]

theorem setHead_itemCount (queue : rcdeviceWaitingResponseQueue)
    (ctx : rcdeviceResponseParseContext) :
    (rcdeviceQueueSetHead queue ctx).itemCount = queue.itemCount := rfl

theorem setHead_headPos (queue : rcdeviceWaitingResponseQueue)
    (ctx : rcdeviceResponseParseContext) :
    (rcdeviceQueueSetHead queue ctx).headPos = queue.headPos := rfl

theorem setHead_tailPos (queue : rcdeviceWaitingResponseQueue)
    (ctx : rcdeviceResponseParseContext) :
    (rcdeviceQueueSetHead queue ctx).tailPos = queue.tailPos := rfl

theorem queueWF_setHead {queue : rcdeviceWaitingResponseQueue}
    (h : rcdeviceQueueWF queue) (ctx : rcdeviceResponseParseContext) :
    rcdeviceQueueWF (rcdeviceQueueSetHead queue ctx) := h

theorem queueWF_shift {queue : rcdeviceWaitingResponseQueue}
    (h : rcdeviceQueueWF queue) :
    rcdeviceQueueWF (rcdeviceRespCtxQueueShift queue).2 := by
  obtain ⟨h1, h2, h3, h4⟩ := h
  by_cases hq : queue.itemCount = 0 ∨ queue.headPos ≥ MAX_WAITING_RESPONSES
  · rw [rcdeviceRespCtxQueueShift, if_pos hq]
    exact ⟨h1, h2, h3, h4⟩
  · rw [shift_snd_eq hq]
    push_neg at hq
    refine ⟨?_, h2, ?_, ?_⟩ <;>
      simp only [MAX_WAITING_RESPONSES] at * <;> omega

theorem queueWF_push {queue : rcdeviceWaitingResponseQueue}
    (h : rcdeviceQueueWF queue) (ctx : rcdeviceResponseParseContext) :
    rcdeviceQueueWF (rcdeviceRespCtxQueuePushRespCtx queue ctx).2 := by
  obtain ⟨h1, h2, h3, h4⟩ := h
  by_cases hq : queue.itemCount + 1 > MAX_WAITING_RESPONSES ∨
      queue.tailPos ≥ MAX_WAITING_RESPONSES
  · rw [rcdeviceRespCtxQueuePushRespCtx, if_pos hq]
    exact ⟨h1, h2, h3, h4⟩
  · rw [push_snd_eq hq]
    push_neg at hq
    refine ⟨h1, ?_, ?_, ?_⟩ <;>
      simp only [MAX_WAITING_RESPONSES] at * <;> omega

/-! ### The logical content of the ring -/

theorem queueList_nil {queue : rcdeviceWaitingResponseQueue}
    (h : queue.itemCount = 0) : rcdeviceQueueList queue = [] := by
  simp [rcdeviceQueueList, h]

theorem queueList_length (queue : rcdeviceWaitingResponseQueue) :
    (rcdeviceQueueList queue).length = queue.itemCount := by
  simp [rcdeviceQueueList]

theorem queueList_cons {queue : rcdeviceWaitingResponseQueue}
    (hhead : queue.headPos < MAX_WAITING_RESPONSES)
    (hcount : queue.itemCount ≠ 0) :
    rcdeviceQueueList queue =
      queue.buffer queue.headPos ::
        rcdeviceQueueList (rcdeviceRespCtxQueueShift queue).2 := by
  have hq : ¬(queue.itemCount = 0 ∨ queue.headPos ≥ MAX_WAITING_RESPONSES) := by
    push_neg
    exact ⟨hcount, hhead⟩
  rw [shift_snd_eq hq]
  obtain ⟨n, hn⟩ : ∃ n, queue.itemCount = n + 1 :=
    ⟨queue.itemCount - 1, by omega⟩
  simp only [rcdeviceQueueList, hn, List.range_succ_eq_map, List.map_cons,
    List.map_map, Nat.add_sub_cancel]
  congr 1
  · congr 1
    simp only [MAX_WAITING_RESPONSES] at *
    omega
  · apply List.map_congr_left
    intro a _
    simp only [Function.comp_apply]
    congr 1
    simp only [MAX_WAITING_RESPONSES] at *
    omega

theorem queueList_shift_setHead {queue : rcdeviceWaitingResponseQueue}
    (hhead : queue.headPos < MAX_WAITING_RESPONSES)
    (hcount : queue.itemCount ≤ MAX_WAITING_RESPONSES)
    (ctx : rcdeviceResponseParseContext) :
    rcdeviceQueueList
        (rcdeviceRespCtxQueueShift (rcdeviceQueueSetHead queue ctx)).2 =
      rcdeviceQueueList (rcdeviceRespCtxQueueShift queue).2 := by
  by_cases hz : queue.itemCount = 0
  · have e1 : (rcdeviceRespCtxQueueShift (rcdeviceQueueSetHead queue ctx)).2.itemCount = 0 := by
      simp [rcdeviceRespCtxQueueShift, rcdeviceQueueSetHead, hz]
    have e2 : (rcdeviceRespCtxQueueShift queue).2.itemCount = 0 := by
      simp [rcdeviceRespCtxQueueShift, hz]
    rw [queueList_nil e1, queueList_nil e2]
  · have hq : ¬(queue.itemCount = 0 ∨ queue.headPos ≥ MAX_WAITING_RESPONSES) := by
      push_neg
      exact ⟨hz, hhead⟩
    have hq2 : ¬((rcdeviceQueueSetHead queue ctx).itemCount = 0 ∨
        (rcdeviceQueueSetHead queue ctx).headPos ≥ MAX_WAITING_RESPONSES) := hq
    rw [shift_snd_eq hq, shift_snd_eq hq2]
    simp only [rcdeviceQueueList, rcdeviceQueueSetHead]
    apply List.map_congr_left
    intro a ha
    rw [List.mem_range] at ha
    rw [if_neg]
    simp only [MAX_WAITING_RESPONSES] at *
    omega

theorem queueList_setHead {queue : rcdeviceWaitingResponseQueue}
    (hhead : queue.headPos < MAX_WAITING_RESPONSES)
    (hcount : queue.itemCount ≠ 0)
    (hle : queue.itemCount ≤ MAX_WAITING_RESPONSES)
    (ctx : rcdeviceResponseParseContext) :
    rcdeviceQueueList (rcdeviceQueueSetHead queue ctx) =
      ctx :: rcdeviceQueueList (rcdeviceRespCtxQueueShift queue).2 := by
  rw [@queueList_cons (rcdeviceQueueSetHead queue ctx) hhead hcount]
  rw [queueList_shift_setHead hhead hle]
  congr 1
  simp [rcdeviceQueueSetHead]

theorem queueList_push {queue : rcdeviceWaitingResponseQueue}
    (hWF : rcdeviceQueueWF queue)
    (hlt : queue.itemCount < MAX_WAITING_RESPONSES)
    (ctx : rcdeviceResponseParseContext) :
    (rcdeviceRespCtxQueuePushRespCtx queue ctx).1 = true ∧
      rcdeviceQueueList (rcdeviceRespCtxQueuePushRespCtx queue ctx).2 =
        rcdeviceQueueList queue ++ [ctx] := by
  obtain ⟨h1, h2, h3, h4⟩ := hWF
  have hq : ¬(queue.itemCount + 1 > MAX_WAITING_RESPONSES ∨
      queue.tailPos ≥ MAX_WAITING_RESPONSES) := by
    push_neg
    exact ⟨by omega, h2⟩
  rw [push_snd_eq hq]
  refine ⟨rfl, ?_⟩
  simp only [rcdeviceQueueList, List.range_succ, List.map_append,
    List.map_cons, List.map_nil]
  congr 1
  · apply List.map_congr_left
    intro a ha
    rw [List.mem_range] at ha
    rw [if_neg]
    simp only [MAX_WAITING_RESPONSES] at *
    omega
  · rw [if_pos]
    simp only [MAX_WAITING_RESPONSES] at *
    omega

theorem popAll_eq_queueList :
    ∀ (n : Nat) (queue : rcdeviceWaitingResponseQueue),
      queue.itemCount = n → rcdeviceQueueWF queue →
      rcdevicePopAll queue = rcdeviceQueueList queue := by
  intro n
  induction n using Nat.strong_induction_on with
  | _ n ih =>
    intro queue hn hWF
    rw [rcdevicePopAll]
    by_cases hq : queue.itemCount = 0 ∨ queue.headPos ≥ MAX_WAITING_RESPONSES
    · rw [dif_pos hq]
      have hz : queue.itemCount = 0 := by
        rcases hq with hq | hq
        · exact hq
        · have := hWF.1
          omega
      rw [queueList_nil hz]
    · rw [dif_neg hq]
      have hq' := hq
      push_neg at hq'
      rw [queueList_cons hq'.2 hq'.1]
      congr 1
      apply ih ((rcdeviceRespCtxQueueShift queue).2.itemCount) _ _ rfl
        (queueWF_shift hWF)
      rw [shift_snd_itemCount hq]
      omega

theorem pushAll_spec :
    ∀ (ctxs : List rcdeviceResponseParseContext)
      (queue : rcdeviceWaitingResponseQueue),
      rcdeviceQueueWF queue →
      queue.itemCount + ctxs.length ≤ MAX_WAITING_RESPONSES →
      rcdeviceQueueWF (rcdevicePushAll queue ctxs) ∧
        rcdeviceQueueList (rcdevicePushAll queue ctxs) =
          rcdeviceQueueList queue ++ ctxs := by
  intro ctxs
  induction ctxs with
  | nil =>
    intro queue hWF _
    exact ⟨hWF, by simp [rcdevicePushAll]⟩
  | cons c cs ih =>
    intro queue hWF hlen
    have hlt : queue.itemCount < MAX_WAITING_RESPONSES := by
      simp only [List.length_cons] at hlen
      omega
    have hpush := queueList_push hWF hlt c
    have hWF' := queueWF_push hWF c
    have hcnt : (rcdeviceRespCtxQueuePushRespCtx queue c).2.itemCount =
        queue.itemCount + 1 := by
      rw [push_snd_eq (by push_neg; exact ⟨by omega, hWF.2.1⟩)]
    have hrec := ih (rcdeviceRespCtxQueuePushRespCtx queue c).2 hWF'
      (by rw [hcnt]; simp only [List.length_cons] at hlen; omega)
    refine ⟨hrec.1, ?_⟩
    have hfold : rcdevicePushAll queue (c :: cs) =
        rcdevicePushAll (rcdeviceRespCtxQueuePushRespCtx queue c).2 cs := rfl
    rw [hfold, hrec.2, hpush.2]
    simp

theorem queueWF_empty : rcdeviceQueueWF rcdeviceEmptyQueue := by
  refine ⟨?_, ?_, ?_, ?_⟩ <;> simp [rcdeviceEmptyQueue, MAX_WAITING_RESPONSES]

/-! ### Case equations for the timeout/retry supervisor -/

theorem getWaitingResponse_stop {queue : rcdeviceWaitingResponseQueue}
    {now : Nat}
    (hq : queue.itemCount = 0 ∨ queue.headPos ≥ MAX_WAITING_RESPONSES) :
    getWaitingResponse queue now = (queue, none, []) := by
  rw [getWaitingResponse, dif_pos hq]

theorem getWaitingResponse_receivable {queue : rcdeviceWaitingResponseQueue}
    {now : Nat}
    (hq : ¬(queue.itemCount = 0 ∨ queue.headPos ≥ MAX_WAITING_RESPONSES))
    (hts : ¬((queue.buffer queue.headPos).timeoutTimestamp ≠ 0 ∧
      now > (queue.buffer queue.headPos).timeoutTimestamp)) :
    getWaitingResponse queue now = (queue, some (queue.buffer queue.headPos), []) := by
  rw [getWaitingResponse, dif_neg hq, if_neg hts]

theorem getWaitingResponse_retry {queue : rcdeviceWaitingResponseQueue}
    {now : Nat}
    (hq : ¬(queue.itemCount = 0 ∨ queue.headPos ≥ MAX_WAITING_RESPONSES))
    (hts : (queue.buffer queue.headPos).timeoutTimestamp ≠ 0 ∧
      now > (queue.buffer queue.headPos).timeoutTimestamp)
    (hr : (queue.buffer queue.headPos).maxRetryTimes > 0) :
    getWaitingResponse queue now =
      (rcdeviceQueueSetHead queue
        { queue.buffer queue.headPos with
          timeoutTimestamp :=
            (now + (queue.buffer queue.headPos).timeout) % UINT32_LIMIT,
          maxRetryTimes := (queue.buffer queue.headPos).maxRetryTimes - 1 },
       none,
       runcamDeviceSendPacket (queue.buffer queue.headPos).deviceOpen
         (queue.buffer queue.headPos).command
         (queue.buffer queue.headPos).paramData
         (queue.buffer queue.headPos).paramDataLen) := by
  rw [getWaitingResponse, dif_neg hq]
  simp only [if_pos hts, if_pos hr]

theorem getWaitingResponse_timeout {queue : rcdeviceWaitingResponseQueue}
    {now : Nat}
    (hq : ¬(queue.itemCount = 0 ∨ queue.headPos ≥ MAX_WAITING_RESPONSES))
    (hts : (queue.buffer queue.headPos).timeoutTimestamp ≠ 0 ∧
      now > (queue.buffer queue.headPos).timeoutTimestamp)
    (hr : ¬(queue.buffer queue.headPos).maxRetryTimes > 0) :
    getWaitingResponse queue now =
      ((getWaitingResponse
          (rcdeviceRespCtxQueueShift
            (rcdeviceQueueSetHead queue
              { queue.buffer queue.headPos with
                result := RCDEVICE_RESP_TIMEOUT })).2 now).1,
       (getWaitingResponse
          (rcdeviceRespCtxQueueShift
            (rcdeviceQueueSetHead queue
              { queue.buffer queue.headPos with
                result := RCDEVICE_RESP_TIMEOUT })).2 now).2.1,
       (if (queue.buffer queue.headPos).hasParser then
          [RcdeviceEvent.callback (queue.buffer queue.headPos).command
            RCDEVICE_RESP_TIMEOUT]
        else []) ++
         (getWaitingResponse
            (rcdeviceRespCtxQueueShift
              (rcdeviceQueueSetHead queue
                { queue.buffer queue.headPos with
                  result := RCDEVICE_RESP_TIMEOUT })).2 now).2.2) := by
  rw [getWaitingResponse, dif_neg hq]
  simp only [if_pos hts, if_neg hr]

/-! ### Peek characterization -/

theorem peekFront_eq_head {queue : rcdeviceWaitingResponseQueue}
    (hWF : rcdeviceQueueWF queue) :
    rcdeviceRespCtxQueuePeekFront queue = (rcdeviceQueueList queue).head? := by
  by_cases hq : queue.itemCount = 0 ∨ queue.headPos ≥ MAX_WAITING_RESPONSES
  · rw [rcdeviceRespCtxQueuePeekFront, if_pos hq]
    have hz : queue.itemCount = 0 := by
      rcases hq with hq | hq
      · exact hq
      · have := hWF.1
        omega
    rw [queueList_nil hz]
    rfl
  · rw [rcdeviceRespCtxQueuePeekFront, if_neg hq]
    push_neg at hq
    rw [queueList_cons hq.2 hq.1]
    rfl

/-! ### Invariant preservation through the supervisor and the receive engine -/

theorem getWaitingResponse_spec (P : rcdeviceResponseParseContext → Prop)
    (hretry : ∀ c t, P c →
      P { c with timeoutTimestamp := t, maxRetryTimes := c.maxRetryTimes - 1 }) :
    ∀ (n : Nat) (queue : rcdeviceWaitingResponseQueue) (now : Nat),
      queue.itemCount = n → rcdeviceQueueWF queue →
      (∀ c ∈ rcdeviceQueueList queue, P c) →
      rcdeviceQueueWF (getWaitingResponse queue now).1 ∧
      (∀ c ∈ rcdeviceQueueList (getWaitingResponse queue now).1, P c) ∧
      (∀ c, (getWaitingResponse queue now).2.1 = some c →
        ¬((getWaitingResponse queue now).1.itemCount = 0 ∨
            (getWaitingResponse queue now).1.headPos ≥ MAX_WAITING_RESPONSES) ∧
          c = (getWaitingResponse queue now).1.buffer
                (getWaitingResponse queue now).1.headPos ∧ P c) := by
  intro n
  induction n using Nat.strong_induction_on with
  | _ n ih =>
    intro queue now hn hWF hP
    by_cases hq : queue.itemCount = 0 ∨ queue.headPos ≥ MAX_WAITING_RESPONSES
    · rw [getWaitingResponse_stop hq]
      refine ⟨hWF, hP, ?_⟩
      intro c hc
      cases hc
    · have hq' := hq
      push_neg at hq'
      have hcons := queueList_cons hq'.2 hq'.1
      have hmem : queue.buffer queue.headPos ∈ rcdeviceQueueList queue := by
        rw [hcons]
        exact List.mem_cons_self _ _
      have hPhead := hP _ hmem
      by_cases hts : (queue.buffer queue.headPos).timeoutTimestamp ≠ 0 ∧
          now > (queue.buffer queue.headPos).timeoutTimestamp
      · by_cases hr : (queue.buffer queue.headPos).maxRetryTimes > 0
        · rw [getWaitingResponse_retry hq hts hr]
          refine ⟨queueWF_setHead hWF _, ?_, ?_⟩
          · intro c hc
            rw [queueList_setHead hq'.2 hq'.1 hWF.2.2.1] at hc
            rcases List.mem_cons.mp hc with hc | hc
            · subst hc
              exact hretry _ _ hPhead
            · apply hP
              rw [hcons]
              exact List.mem_cons_of_mem _ hc
          · intro c hc
            cases hc
        · rw [getWaitingResponse_timeout hq hts hr]
          have hWF1 : rcdeviceQueueWF
              (rcdeviceRespCtxQueueShift
                (rcdeviceQueueSetHead queue
                  { queue.buffer queue.headPos with
                    result := RCDEVICE_RESP_TIMEOUT })).2 :=
            queueWF_shift (queueWF_setHead hWF _)
          have hP1 : ∀ c ∈ rcdeviceQueueList
              (rcdeviceRespCtxQueueShift
                (rcdeviceQueueSetHead queue
                  { queue.buffer queue.headPos with
                    result := RCDEVICE_RESP_TIMEOUT })).2, P c := by
            intro c hc
            rw [queueList_shift_setHead hq'.2 hWF.2.2.1] at hc
            apply hP
            rw [hcons]
            exact List.mem_cons_of_mem _ hc
          have hcnt : (rcdeviceRespCtxQueueShift
              (rcdeviceQueueSetHead queue
                { queue.buffer queue.headPos with
                  result := RCDEVICE_RESP_TIMEOUT })).2.itemCount =
              queue.itemCount - 1 := shift_snd_itemCount hq
          have hrec := ih ((rcdeviceRespCtxQueueShift
              (rcdeviceQueueSetHead queue
                { queue.buffer queue.headPos with
                  result := RCDEVICE_RESP_TIMEOUT })).2.itemCount)
            (by rw [hcnt]; omega) _ now rfl hWF1 hP1
          exact ⟨hrec.1, hrec.2.1, hrec.2.2⟩
      · rw [getWaitingResponse_receivable hq hts]
        refine ⟨hWF, hP, ?_⟩
        intro c hc
        rw [Option.some_inj] at hc
        subst hc
        exact ⟨hq, rfl, hPhead⟩

theorem rcdeviceReceive_nil (queue : rcdeviceWaitingResponseQueue) (now : Nat) :
    rcdeviceReceive queue now [] =
      ((getWaitingResponse queue now).1, (getWaitingResponse queue now).2.2, []) :=
  rfl

theorem rcdeviceReceive_preserves (P : rcdeviceResponseParseContext → Prop)
    (hretry : ∀ c t, P c →
      P { c with timeoutTimestamp := t, maxRetryTimes := c.maxRetryTimes - 1 })
    (happend : ∀ c b, P c → c.recvRespLen + 1 ≠ c.expectedRespLen →
      P { c with
        recvBuf := fun i => if i = c.recvRespLen then b else c.recvBuf i,
        recvRespLen := c.recvRespLen + 1 }) :
    ∀ (bytes : List Nat) (queue : rcdeviceWaitingResponseQueue) (now : Nat),
      rcdeviceQueueWF queue → (∀ c ∈ rcdeviceQueueList queue, P c) →
      rcdeviceQueueWF (rcdeviceReceive queue now bytes).1 ∧
      (∀ c ∈ rcdeviceQueueList (rcdeviceReceive queue now bytes).1, P c) := by
  intro bytes
  induction bytes with
  | nil =>
    intro queue now hWF hP
    have hg := getWaitingResponse_spec P hretry queue.itemCount queue now rfl hWF hP
    rw [rcdeviceReceive_nil]
    exact ⟨hg.1, hg.2.1⟩
  | cons b rest ih =>
    intro queue now hWF hP
    have hg := getWaitingResponse_spec P hretry queue.itemCount queue now rfl hWF hP
    cases hopt : (getWaitingResponse queue now).2.1 with
    | none =>
      simp only [rcdeviceReceive, hopt]
      exact ⟨hg.1, hg.2.1⟩
    | some ctx =>
      obtain ⟨hgq, hctx, hPctx⟩ := hg.2.2 ctx hopt
      have hgq' := hgq
      push_neg at hgq'
      simp only [rcdeviceReceive, hopt]
      by_cases hlen : ctx.recvRespLen + 1 = ctx.expectedRespLen
      · rw [if_pos hlen]
        apply ih
        · exact queueWF_shift (queueWF_setHead hg.1 _)
        · intro c hc
          rw [queueList_shift_setHead hgq'.2 hg.1.2.2.1] at hc
          apply hg.2.1
          rw [queueList_cons hgq'.2 hgq'.1]
          exact List.mem_cons_of_mem _ hc
      · rw [if_neg hlen]
        apply ih
        · exact queueWF_setHead hg.1 _
        · intro c hc
          rw [queueList_setHead hgq'.2 hgq'.1 hg.1.2.2.1] at hc
          rcases List.mem_cons.mp hc with hc | hc
          · subst hc
            rw [hctx]
            exact happend _ _ (hctx ▸ hPctx) (hctx ▸ hlen)
          · apply hg.2.1
            rw [queueList_cons hgq'.2 hgq'.1]
            exact List.mem_cons_of_mem _ hc

/-! ### Characterizing a successful peek -/

theorem peekFront_eq_some {queue : rcdeviceWaitingResponseQueue}
    {ctx : rcdeviceResponseParseContext}
    (h : rcdeviceRespCtxQueuePeekFront queue = some ctx) :
    ¬(queue.itemCount = 0 ∨ queue.headPos ≥ MAX_WAITING_RESPONSES) ∧
      ctx = queue.buffer queue.headPos := by
  by_cases hq : queue.itemCount = 0 ∨ queue.headPos ≥ MAX_WAITING_RESPONSES
  · rw [rcdeviceRespCtxQueuePeekFront, if_pos hq] at h
    cases h
  · rw [rcdeviceRespCtxQueuePeekFront, if_neg hq] at h
    exact ⟨hq, (Option.some_inj.mp h).symm⟩

theorem push_fail_snd {queue : rcdeviceWaitingResponseQueue}
    {ctx : rcdeviceResponseParseContext}
    (h : (rcdeviceRespCtxQueuePushRespCtx queue ctx).1 = false) :
    (rcdeviceRespCtxQueuePushRespCtx queue ctx).2 = queue := by
  by_cases hq : queue.itemCount + 1 > MAX_WAITING_RESPONSES ∨
      queue.tailPos ≥ MAX_WAITING_RESPONSES
  · rw [rcdeviceRespCtxQueuePushRespCtx, if_pos hq]
  · rw [rcdeviceRespCtxQueuePushRespCtx, if_neg hq] at h
    cases h

theorem push_empty_eq_singleton (ctx : rcdeviceResponseParseContext) :
    (rcdeviceRespCtxQueuePushRespCtx rcdeviceEmptyQueue ctx).2 =
      rcdeviceSingletonQueue ctx := rfl

theorem setHead_singleton (ctx c : rcdeviceResponseParseContext) :
    rcdeviceQueueSetHead (rcdeviceSingletonQueue ctx) c =
      rcdeviceSingletonQueue c := by
  simp only [rcdeviceQueueSetHead, rcdeviceSingletonQueue]
  congr 1
  funext i
  by_cases h : i = 0 <;> simp [h]

theorem shift_singleton_itemCount (ctx : rcdeviceResponseParseContext) :
    (rcdeviceRespCtxQueueShift (rcdeviceSingletonQueue ctx)).2.itemCount = 0 := by
  simp [rcdeviceRespCtxQueueShift, rcdeviceSingletonQueue, MAX_WAITING_RESPONSES]

theorem singleton_not_guard (ctx : rcdeviceResponseParseContext) :
    ¬((rcdeviceSingletonQueue ctx).itemCount = 0 ∨
      (rcdeviceSingletonQueue ctx).headPos ≥ MAX_WAITING_RESPONSES) := by
  simp [rcdeviceSingletonQueue, MAX_WAITING_RESPONSES]

theorem expiredSchedule_cons {d T t : Nat} {ts : List Nat}
    (h : rcdeviceExpiredSchedule d T (t :: ts) = true) :
    d ≠ 0 ∧ t > d ∧
      rcdeviceExpiredSchedule ((t + T) % UINT32_LIMIT) T ts = true := by
  simp only [rcdeviceExpiredSchedule, Bool.and_eq_true, decide_eq_true_eq] at h
  exact ⟨h.1.1, h.1.2, h.2⟩

/-! ## Claims -/

/-- **C6**: for every sequence of pushes onto the ring that does not exceed
its fixed capacity, the order in which contexts come back out of
`rcdeviceRespCtxQueueShift` equals the push order (FIFO); and the structural
invariants — `itemCount ≤ capacity` with `headPos` and `tailPos` valid indices
modulo the capacity — are preserved by every push and every shift, while
`rcdeviceRespCtxQueuePeekFront` (which does not mutate) returns exactly the
first element of the ring's logical FIFO content. -/
theorem claim_C6_fifo_invariants :
    (∀ ctxs : List rcdeviceResponseParseContext,
        ctxs.length ≤ MAX_WAITING_RESPONSES →
        rcdevicePopAll (rcdevicePushAll rcdeviceEmptyQueue ctxs) = ctxs) ∧
    (∀ (queue : rcdeviceWaitingResponseQueue)
        (ctx : rcdeviceResponseParseContext),
        rcdeviceQueueWF queue →
        rcdeviceQueueWF (rcdeviceRespCtxQueuePushRespCtx queue ctx).2) ∧
    (∀ queue : rcdeviceWaitingResponseQueue,
        rcdeviceQueueWF queue →
        rcdeviceQueueWF (rcdeviceRespCtxQueueShift queue).2) ∧
    (∀ queue : rcdeviceWaitingResponseQueue,
        rcdeviceQueueWF queue →
        rcdeviceRespCtxQueuePeekFront queue = (rcdeviceQueueList queue).head?) := by
  refine ⟨?_, ?_, ?_, ?_⟩
  · intro ctxs hlen
    have hempty : rcdeviceEmptyQueue.itemCount = 0 := rfl
    have hp := pushAll_spec ctxs rcdeviceEmptyQueue queueWF_empty
      (by rw [hempty]; omega)
    rw [popAll_eq_queueList (rcdevicePushAll rcdeviceEmptyQueue ctxs).itemCount
      _ rfl hp.1, hp.2, queueList_nil hempty]
    rfl
  · intro queue ctx hWF
    exact queueWF_push hWF ctx
  · intro queue hWF
    exact queueWF_shift hWF
  · intro queue hWF
    exact peekFront_eq_head hWF

theorem claim_C6_witness :
    ([(default : rcdeviceResponseParseContext), default, default].length ≤
        MAX_WAITING_RESPONSES) ∧
    rcdevicePopAll (rcdevicePushAll rcdeviceEmptyQueue
        [(default : rcdeviceResponseParseContext), default, default]) =
      [default, default, default] ∧
    rcdeviceQueueWF
      (rcdeviceRespCtxQueuePushRespCtx rcdeviceEmptyQueue default).2 :=
  ⟨by decide,
   claim_C6_fifo_invariants.1 [default, default, default] (by decide),
   claim_C6_fifo_invariants.2.1 rcdeviceEmptyQueue default queueWF_empty⟩

/-- **C7**: pushing a context onto a ring whose `itemCount` equals the
capacity returns `false` and does not mutate the ring in any way: the returned
queue (buffer contents, `itemCount`, `headPos`, `tailPos`) is the input
queue. -/
theorem claim_C7_push_full (queue : rcdeviceWaitingResponseQueue)
    (ctx : rcdeviceResponseParseContext)
    (h : queue.itemCount = MAX_WAITING_RESPONSES) :
    rcdeviceRespCtxQueuePushRespCtx queue ctx = (false, queue) := by
  rw [rcdeviceRespCtxQueuePushRespCtx, if_pos]
  left
  omega

theorem claim_C7_witness :
    ({ buffer := fun _ => default, headPos := 0, tailPos := 0, itemCount := 5 :
        rcdeviceWaitingResponseQueue }.itemCount = MAX_WAITING_RESPONSES) ∧
    rcdeviceRespCtxQueuePushRespCtx
        { buffer := fun _ => default, headPos := 0, tailPos := 0, itemCount := 5 }
        default =
      (false,
        { buffer := fun _ => default, headPos := 0, tailPos := 0, itemCount := 5 }) :=
  ⟨rfl,
   claim_C7_push_full
     { buffer := fun _ => default, headPos := 0, tailPos := 0, itemCount := 5 }
     default rfl⟩

/-- **C8**: in `runcamDeviceSendRequestAndWaitingResp` the frame is encoded
and transmitted no matter what the push onto the ring returned (the emitted
events are exactly `runcamDeviceSendPacket`'s — in particular, no callback
event), and when the push fails the queue is completely unchanged, so the
dropped request's context is nowhere and its callback can never fire; no
error is reported anywhere (the function returns only the queue and the
transmit events). -/
theorem claim_C8_silent_drop (queue : rcdeviceWaitingResponseQueue) (now : Nat)
    (deviceOpen : Bool) (commandID : Nat) (paramData : List Nat)
    (paramDataLen : Nat) (tiemout : Nat) (maxRetryTimes : Int)
    (hasParser : Bool) :
    (runcamDeviceSendRequestAndWaitingResp queue now deviceOpen commandID
        paramData paramDataLen tiemout maxRetryTimes hasParser).2 =
      runcamDeviceSendPacket deviceOpen commandID paramData paramDataLen ∧
    ((rcdeviceRespCtxQueuePushRespCtx queue
        (runcamDeviceMakeRespCtx now deviceOpen commandID paramData
          paramDataLen tiemout maxRetryTimes hasParser)).1 = false →
      (runcamDeviceSendRequestAndWaitingResp queue now deviceOpen commandID
          paramData paramDataLen tiemout maxRetryTimes hasParser).1 = queue) := by
  refine ⟨rfl, ?_⟩
  intro hfail
  exact push_fail_snd hfail

theorem claim_C8_witness :
    ((rcdeviceRespCtxQueuePushRespCtx
        { buffer := fun _ => default, headPos := 0, tailPos := 0, itemCount := 5 }
        (runcamDeviceMakeRespCtx 0 true 1 [] 0 100 1 true)).1 = false) ∧
    (runcamDeviceSendRequestAndWaitingResp
        { buffer := fun _ => default, headPos := 0, tailPos := 0, itemCount := 5 }
        0 true 1 [] 0 100 1 true).2 =
      runcamDeviceSendPacket true 1 [] 0 ∧
    (runcamDeviceSendRequestAndWaitingResp
        { buffer := fun _ => default, headPos := 0, tailPos := 0, itemCount := 5 }
        0 true 1 [] 0 100 1 true).1 =
      { buffer := fun _ => default, headPos := 0, tailPos := 0, itemCount := 5 } :=
  ⟨rfl,
   (claim_C8_silent_drop _ 0 true 1 [] 0 100 1 true).1,
   (claim_C8_silent_drop _ 0 true 1 [] 0 100 1 true).2 rfl⟩

/-- **C10**: a head context whose `timeoutTimestamp` is 0 is never expired by
the supervisor: for every current time and every remaining retry count it is
returned as the receivable head with the queue untouched and no events
emitted — no retransmission and no timed-out outcome, so 0 acts as a
no-timeout sentinel. -/
theorem claim_C10_zero_deadline (queue : rcdeviceWaitingResponseQueue)
    (now : Nat) (ctx : rcdeviceResponseParseContext)
    (hpk : rcdeviceRespCtxQueuePeekFront queue = some ctx)
    (h0 : ctx.timeoutTimestamp = 0) :
    getWaitingResponse queue now = (queue, some ctx, []) := by
  obtain ⟨hq, hctx⟩ := peekFront_eq_some hpk
  rw [getWaitingResponse_receivable hq]
  · rw [← hctx]
  · rw [← hctx]
    intro hcontra
    exact hcontra.1 h0

theorem claim_C10_witness :
    (rcdeviceRespCtxQueuePeekFront
        { buffer := fun _ => default, headPos := 0, tailPos := 1, itemCount := 1 } =
      some default) ∧
    ((default : rcdeviceResponseParseContext).timeoutTimestamp = 0) ∧
    getWaitingResponse
        { buffer := fun _ => default, headPos := 0, tailPos := 1, itemCount := 1 }
        123456 =
      ({ buffer := fun _ => default, headPos := 0, tailPos := 1, itemCount := 1 },
        some default, []) :=
  ⟨rfl, rfl,
   claim_C10_zero_deadline
     { buffer := fun _ => default, headPos := 0, tailPos := 1, itemCount := 1 }
     123456 default rfl rfl⟩

/-- **C9**: every context built by the module's send path has its protocol
variant set to version 1.0 (the `memset`-then-assign block overwrites the
zeroed tag), this property is preserved across the send path and the whole
receive/timeout engine, and for a context whose tag is version 1.0 the
validation step takes only the Variant B branch — the legacy RCSPLIT swap is
unreachable: the receive buffer is untouched and the outcome is the
accumulate-to-zero CRC-8/DVB-S2 check. -/
theorem claim_C9_always_v10 :
    (∀ (now : Nat) (deviceOpen : Bool) (commandID : Nat) (paramData : List Nat)
        (paramDataLen tiemout : Nat) (maxRetryTimes : Int) (hasParser : Bool),
      (runcamDeviceMakeRespCtx now deviceOpen commandID paramData paramDataLen
          tiemout maxRetryTimes hasParser).protocolVer =
        RCDEVICE_PROTOCOL_VERSION_1_0) ∧
    (∀ (queue : rcdeviceWaitingResponseQueue) (now : Nat) (deviceOpen : Bool)
        (commandID : Nat) (paramData : List Nat) (paramDataLen tiemout : Nat)
        (maxRetryTimes : Int) (hasParser : Bool),
      rcdeviceQueueWF queue →
      (∀ c ∈ rcdeviceQueueList queue,
        c.protocolVer = RCDEVICE_PROTOCOL_VERSION_1_0) →
      ∀ c ∈ rcdeviceQueueList
          (runcamDeviceSendRequestAndWaitingResp queue now deviceOpen commandID
            paramData paramDataLen tiemout maxRetryTimes hasParser).1,
        c.protocolVer = RCDEVICE_PROTOCOL_VERSION_1_0) ∧
    (∀ (queue : rcdeviceWaitingResponseQueue) (now : Nat) (bytes : List Nat),
      rcdeviceQueueWF queue →
      (∀ c ∈ rcdeviceQueueList queue,
        c.protocolVer = RCDEVICE_PROTOCOL_VERSION_1_0) →
      ∀ c ∈ rcdeviceQueueList (rcdeviceReceive queue now bytes).1,
        c.protocolVer = RCDEVICE_PROTOCOL_VERSION_1_0) ∧
    (∀ ctx : rcdeviceResponseParseContext,
      ctx.protocolVer = RCDEVICE_PROTOCOL_VERSION_1_0 →
      rcdeviceReceiveVerify ctx =
        { ctx with
          result :=
            if ((List.range ctx.recvRespLen).map ctx.recvBuf).foldl
                crc8_dvb_s2 0 = 0
            then RCDEVICE_RESP_SUCCESS
            else RCDEVICE_RESP_INCORRECT_CRC }) := by
  refine ⟨fun _ _ _ _ _ _ _ _ => rfl, ?_, ?_, ?_⟩
  · intro queue now deviceOpen commandID paramData paramDataLen tiemout
      maxRetryTimes hasParser hWF hP c hc
    by_cases hq : queue.itemCount + 1 > MAX_WAITING_RESPONSES ∨
        queue.tailPos ≥ MAX_WAITING_RESPONSES
    · have : (runcamDeviceSendRequestAndWaitingResp queue now deviceOpen
          commandID paramData paramDataLen tiemout maxRetryTimes hasParser).1 =
          queue := by
        show (rcdeviceRespCtxQueuePushRespCtx queue _).2 = queue
        rw [rcdeviceRespCtxQueuePushRespCtx, if_pos hq]
      rw [this] at hc
      exact hP c hc
    · have hlt : queue.itemCount < MAX_WAITING_RESPONSES := by
        push_neg at hq
        omega
      have hpush := queueList_push hWF hlt (runcamDeviceMakeRespCtx now
        deviceOpen commandID paramData paramDataLen tiemout maxRetryTimes
        hasParser)
      have : rcdeviceQueueList (runcamDeviceSendRequestAndWaitingResp queue now
          deviceOpen commandID paramData paramDataLen tiemout maxRetryTimes
          hasParser).1 = rcdeviceQueueList queue ++
          [runcamDeviceMakeRespCtx now deviceOpen commandID paramData
            paramDataLen tiemout maxRetryTimes hasParser] := hpush.2
      rw [this] at hc
      rcases List.mem_append.mp hc with hc | hc
      · exact hP c hc
      · rw [List.mem_singleton] at hc
        subst hc
        rfl
  · intro queue now bytes hWF hP
    exact (rcdeviceReceive_preserves
      (fun c => c.protocolVer = RCDEVICE_PROTOCOL_VERSION_1_0)
      (fun c t h => h) (fun c b h _ => h) bytes queue now hWF hP).2
  · intro ctx h
    rw [rcdeviceReceiveVerify, if_neg, if_pos h]
    rw [h]
    decide

theorem claim_C9_witness :
    ((runcamDeviceMakeRespCtx 0 true 1 [] 0 100 1 true).protocolVer =
      RCDEVICE_PROTOCOL_VERSION_1_0) ∧
    rcdeviceQueueWF rcdeviceEmptyQueue ∧
    (∀ c ∈ rcdeviceQueueList
        (runcamDeviceSendRequestAndWaitingResp rcdeviceEmptyQueue 0 true 1 []
          0 100 1 true).1,
      c.protocolVer = RCDEVICE_PROTOCOL_VERSION_1_0) :=
  ⟨claim_C9_always_v10.1 0 true 1 [] 0 100 1 true,
   queueWF_empty,
   claim_C9_always_v10.2.1 rcdeviceEmptyQueue 0 true 1 [] 0 100 1 true
     queueWF_empty
     (by simp [rcdeviceQueueList, rcdeviceEmptyQueue])⟩

/-- **C3**: when the head context's nonzero deadline has expired and retries
remain, the supervisor resends the stored frame (same command and parameters
— for a context built by the send path this is byte-for-byte the originally
transmitted frame), writes the head back with `deadline = now + timeout` and
the retry count decremented, performs no push (`itemCount` unchanged), and
reports no receivable head, so the poll consumes no incoming byte on that
tick and invokes no callback (the only emitted event is the retransmission). -/
theorem claim_C3_retry_resend (queue : rcdeviceWaitingResponseQueue)
    (now : Nat) (ctx : rcdeviceResponseParseContext) (bytes : List Nat)
    (hpk : rcdeviceRespCtxQueuePeekFront queue = some ctx)
    (hts : ctx.timeoutTimestamp ≠ 0) (hnow : now > ctx.timeoutTimestamp)
    (hr : ctx.maxRetryTimes > 0) :
    getWaitingResponse queue now =
      (rcdeviceQueueSetHead queue
        { ctx with
          timeoutTimestamp := (now + ctx.timeout) % UINT32_LIMIT,
          maxRetryTimes := ctx.maxRetryTimes - 1 },
       none,
       runcamDeviceSendPacket ctx.deviceOpen ctx.command ctx.paramData
         ctx.paramDataLen) ∧
    (rcdeviceQueueSetHead queue
        { ctx with
          timeoutTimestamp := (now + ctx.timeout) % UINT32_LIMIT,
          maxRetryTimes := ctx.maxRetryTimes - 1 }).itemCount =
      queue.itemCount ∧
    rcdeviceReceive queue now bytes =
      (rcdeviceQueueSetHead queue
        { ctx with
          timeoutTimestamp := (now + ctx.timeout) % UINT32_LIMIT,
          maxRetryTimes := ctx.maxRetryTimes - 1 },
       runcamDeviceSendPacket ctx.deviceOpen ctx.command ctx.paramData
         ctx.paramDataLen,
       bytes) ∧
    (∀ (now2 : Nat) (deviceOpen : Bool) (commandID : Nat)
        (paramData : List Nat) (paramDataLen tiemout : Nat)
        (maxRetryTimes : Int) (hasParser : Bool),
      runcamDevicePacketFrame
          (runcamDeviceMakeRespCtx now2 deviceOpen commandID paramData
            paramDataLen tiemout maxRetryTimes hasParser).command
          (runcamDeviceMakeRespCtx now2 deviceOpen commandID paramData
            paramDataLen tiemout maxRetryTimes hasParser).paramData
          (runcamDeviceMakeRespCtx now2 deviceOpen commandID paramData
            paramDataLen tiemout maxRetryTimes hasParser).paramDataLen =
        runcamDevicePacketFrame commandID paramData paramDataLen) := by
  obtain ⟨hq, hctx⟩ := peekFront_eq_some hpk
  subst hctx
  have h1 := getWaitingResponse_retry hq ⟨hts, hnow⟩ hr
  refine ⟨h1, rfl, ?_, ?_⟩
  · rcases bytes with _ | ⟨b, rest⟩
    · rw [rcdeviceReceive_nil, h1]
    · simp only [rcdeviceReceive, h1]
  · intro now2 deviceOpen commandID paramData paramDataLen tiemout
      maxRetryTimes hasParser
    simp only [runcamDeviceMakeRespCtx, runcamDevicePacketFrame,
      List.take_take, Nat.min_self]

/-- On a singleton ring whose context has retry budget `R`, an expired-schedule
sequence of `R + 1` polls (with no incoming bytes) produces exactly `R`
retransmissions of the stored frame followed by the single timed-out callback
(when a parser is registered), leaving the ring empty. -/
theorem pollTimes_singleton_expired :
    ∀ (R : Nat) (ctx : rcdeviceResponseParseContext) (ts : List Nat),
      ctx.maxRetryTimes = (R : Int) → ctx.deviceOpen = true →
      ts.length = R + 1 →
      rcdeviceExpiredSchedule ctx.timeoutTimestamp ctx.timeout ts = true →
      (rcdevicePollTimes (rcdeviceSingletonQueue ctx) ts).2 =
        List.replicate R (RcdeviceEvent.send
          (runcamDevicePacketFrame ctx.command ctx.paramData
            ctx.paramDataLen)) ++
        (if ctx.hasParser then
          [RcdeviceEvent.callback ctx.command RCDEVICE_RESP_TIMEOUT]
         else []) ∧
      (rcdevicePollTimes (rcdeviceSingletonQueue ctx) ts).1.itemCount = 0 := by
  intro R
  induction R with
  | zero =>
    intro ctx ts hR hopen hlen hsched
    rcases ts with _ | ⟨t, ts'⟩
    · simp at hlen
    · have hts' : ts' = [] := by
        simp only [List.length_cons] at hlen
        exact List.length_eq_zero.mp (by omega)
      subst hts'
      obtain ⟨hd, ht, _⟩ := expiredSchedule_cons hsched
      have hbuf : (rcdeviceSingletonQueue ctx).buffer
          (rcdeviceSingletonQueue ctx).headPos = ctx := rfl
      have hr : ¬((rcdeviceSingletonQueue ctx).buffer
          (rcdeviceSingletonQueue ctx).headPos).maxRetryTimes > 0 := by
        show ¬ctx.maxRetryTimes > 0
        rw [hR]
        omega
      have h1 := getWaitingResponse_timeout
        (singleton_not_guard ctx) ⟨hd, ht⟩ hr
      rw [hbuf] at h1
      rw [setHead_singleton] at h1
      have h2 := @getWaitingResponse_stop _ t
        (Or.inl (shift_singleton_itemCount
          { ctx with result := RCDEVICE_RESP_TIMEOUT }))
      rw [h2] at h1
      constructor
      · simp only [rcdevicePollTimes, rcdeviceReceive_nil, h1]
        simp [List.replicate]
      · simp only [rcdevicePollTimes, rcdeviceReceive_nil, h1]
        exact shift_singleton_itemCount _
  | succ R ih =>
    intro ctx ts hR hopen hlen hsched
    rcases ts with _ | ⟨t, ts'⟩
    · simp at hlen
    · obtain ⟨hd, ht, hsched'⟩ := expiredSchedule_cons hsched
      have hbuf : (rcdeviceSingletonQueue ctx).buffer
          (rcdeviceSingletonQueue ctx).headPos = ctx := rfl
      have hr : ((rcdeviceSingletonQueue ctx).buffer
          (rcdeviceSingletonQueue ctx).headPos).maxRetryTimes > 0 := by
        show ctx.maxRetryTimes > 0
        rw [hR]
        omega
      have h1 := getWaitingResponse_retry
        (singleton_not_guard ctx) ⟨hd, ht⟩ hr
      rw [hbuf] at h1
      rw [setHead_singleton] at h1
      have hIH := ih
        { ctx with
          timeoutTimestamp := (t + ctx.timeout) % UINT32_LIMIT,
          maxRetryTimes := ctx.maxRetryTimes - 1 } ts'
        (by show ctx.maxRetryTimes - 1 = (R : Int); rw [hR]; omega)
        hopen
        (by simp only [List.length_cons] at hlen; omega)
        hsched'
      constructor
      · simp only [rcdevicePollTimes, rcdeviceReceive_nil, h1]
        rw [hIH.1]
        simp only [runcamDeviceSendPacket, hopen, if_true]
        simp [List.replicate_succ]
      · simp only [rcdevicePollTimes, rcdeviceReceive_nil, h1]
        exact hIH.2

/-- **C2**: when the head context's nonzero deadline has expired and no
retries remain, the supervisor finalizes it as timed out — emitting the
callback (when registered) exactly once — pops it, and re-runs itself on the
shifted queue within the same pass, so a chain of expired heads resolves in
one invocation; consequently, a request pushed alone with retry budget `R`
that never receives a byte undergoes, over any expired schedule of `R + 1`
polls, exactly `R` retransmissions of its frame followed by the single
timed-out callback, after which the ring is empty. -/
theorem claim_C2_timeout_finalize :
    (∀ (queue : rcdeviceWaitingResponseQueue) (now : Nat)
        (ctx : rcdeviceResponseParseContext),
      rcdeviceRespCtxQueuePeekFront queue = some ctx →
      ctx.timeoutTimestamp ≠ 0 → now > ctx.timeoutTimestamp →
      ¬ctx.maxRetryTimes > 0 →
      getWaitingResponse queue now =
        ((getWaitingResponse
            (rcdeviceRespCtxQueueShift
              (rcdeviceQueueSetHead queue
                { ctx with result := RCDEVICE_RESP_TIMEOUT })).2 now).1,
         (getWaitingResponse
            (rcdeviceRespCtxQueueShift
              (rcdeviceQueueSetHead queue
                { ctx with result := RCDEVICE_RESP_TIMEOUT })).2 now).2.1,
         (if ctx.hasParser then
            [RcdeviceEvent.callback ctx.command RCDEVICE_RESP_TIMEOUT]
          else []) ++
           (getWaitingResponse
              (rcdeviceRespCtxQueueShift
                (rcdeviceQueueSetHead queue
                  { ctx with result := RCDEVICE_RESP_TIMEOUT })).2 now).2.2)) ∧
    (∀ (R : Nat) (ctx : rcdeviceResponseParseContext) (ts : List Nat),
      ctx.maxRetryTimes = (R : Int) → ctx.deviceOpen = true →
      ts.length = R + 1 →
      rcdeviceExpiredSchedule ctx.timeoutTimestamp ctx.timeout ts = true →
      (rcdevicePollTimes
          (rcdeviceRespCtxQueuePushRespCtx rcdeviceEmptyQueue ctx).2 ts).2 =
        List.replicate R (RcdeviceEvent.send
          (runcamDevicePacketFrame ctx.command ctx.paramData
            ctx.paramDataLen)) ++
        (if ctx.hasParser then
          [RcdeviceEvent.callback ctx.command RCDEVICE_RESP_TIMEOUT]
         else []) ∧
      (rcdevicePollTimes
          (rcdeviceRespCtxQueuePushRespCtx rcdeviceEmptyQueue ctx).2
          ts).1.itemCount = 0) := by
  constructor
  · intro queue now ctx hpk hts hnow hr
    obtain ⟨hq, hctx⟩ := peekFront_eq_some hpk
    subst hctx
    exact getWaitingResponse_timeout hq ⟨hts, hnow⟩ hr
  · intro R ctx ts hR hopen hlen hsched
    rw [push_empty_eq_singleton]
    exact pollTimes_singleton_expired R ctx ts hR hopen hlen hsched

theorem claim_C3_witness :
    (rcdeviceRespCtxQueuePeekFront
        (rcdeviceSingletonQueue rcdeviceDemoRetryCtx) =
      some rcdeviceDemoRetryCtx) ∧
    (rcdeviceDemoRetryCtx.timeoutTimestamp ≠ 0) ∧
    (6 > rcdeviceDemoRetryCtx.timeoutTimestamp) ∧
    (rcdeviceDemoRetryCtx.maxRetryTimes > 0) ∧
    (rcdeviceQueueSetHead (rcdeviceSingletonQueue rcdeviceDemoRetryCtx)
        { rcdeviceDemoRetryCtx with
          timeoutTimestamp := (6 + rcdeviceDemoRetryCtx.timeout) % UINT32_LIMIT,
          maxRetryTimes := rcdeviceDemoRetryCtx.maxRetryTimes - 1 }).itemCount =
      (rcdeviceSingletonQueue rcdeviceDemoRetryCtx).itemCount :=
  ⟨rfl, by decide, by decide, by decide,
   (claim_C3_retry_resend (rcdeviceSingletonQueue rcdeviceDemoRetryCtx) 6
     rcdeviceDemoRetryCtx [] rfl (by decide) (by decide) (by decide)).2.1⟩

theorem claim_C2_witness :
    (rcdeviceDemoRetryCtx.maxRetryTimes = ((1 : Nat) : Int)) ∧
    (rcdeviceDemoRetryCtx.deviceOpen = true) ∧
    (([6, 20] : List Nat).length = 1 + 1) ∧
    (rcdeviceExpiredSchedule rcdeviceDemoRetryCtx.timeoutTimestamp
        rcdeviceDemoRetryCtx.timeout [6, 20] = true) ∧
    (rcdevicePollTimes
        (rcdeviceRespCtxQueuePushRespCtx rcdeviceEmptyQueue
          rcdeviceDemoRetryCtx).2 [6, 20]).2 =
      List.replicate 1 (RcdeviceEvent.send
        (runcamDevicePacketFrame rcdeviceDemoRetryCtx.command
          rcdeviceDemoRetryCtx.paramData rcdeviceDemoRetryCtx.paramDataLen)) ++
      (if rcdeviceDemoRetryCtx.hasParser then
        [RcdeviceEvent.callback rcdeviceDemoRetryCtx.command
          RCDEVICE_RESP_TIMEOUT]
       else []) :=
  ⟨rfl, rfl, by decide, by decide,
   (claim_C2_timeout_finalize.2 1 rcdeviceDemoRetryCtx [6, 20] rfl rfl
     (by decide) (by decide)).1⟩

/-! ### The completion step of the receive engine -/

theorem range_map_update (buf : Nat → Nat) (n c : Nat) :
    (List.range (n + 1)).map (fun i => if i = n then c else buf i) =
      (List.range n).map buf ++ [c] := by
  rw [List.range_succ, List.map_append]
  congr 1
  · apply List.map_congr_left
    intro a ha
    rw [List.mem_range] at ha
    rw [if_neg (by omega)]
  · simp

theorem rcdeviceReceiveVerify_v10 {ctx : rcdeviceResponseParseContext}
    (h : ctx.protocolVer = RCDEVICE_PROTOCOL_VERSION_1_0) :
    rcdeviceReceiveVerify ctx =
      { ctx with
        result :=
          if ((List.range ctx.recvRespLen).map ctx.recvBuf).foldl
              crc8_dvb_s2 0 = 0
          then RCDEVICE_RESP_SUCCESS
          else RCDEVICE_RESP_INCORRECT_CRC } := by
  rw [rcdeviceReceiveVerify, if_neg (by rw [h]; decide), if_pos h]

theorem rcdeviceReceiveVerify_rcsplit {ctx : rcdeviceResponseParseContext}
    (h : ctx.protocolVer = RCDEVICE_PROTOCOL_RCSPLIT_VERSION) :
    rcdeviceReceiveVerify ctx =
      { ctx with
        recvBuf := fun i => if i = 3 then ctx.recvBuf 4 else ctx.recvBuf i,
        result :=
          if calcCRCFromData ((List.range 4).map
              (fun i => if i = 3 then ctx.recvBuf 4 else ctx.recvBuf i)) =
              ctx.recvBuf 3
          then RCDEVICE_RESP_SUCCESS
          else RCDEVICE_RESP_INCORRECT_CRC } := by
  rw [rcdeviceReceiveVerify, if_pos h]

theorem rcdeviceReceiveVerify_hasParser (c : rcdeviceResponseParseContext) :
    (rcdeviceReceiveVerify c).hasParser = c.hasParser := by
  rw [rcdeviceReceiveVerify]
  split_ifs <;> rfl

theorem rcdeviceReceiveVerify_command (c : rcdeviceResponseParseContext) :
    (rcdeviceReceiveVerify c).command = c.command := by
  rw [rcdeviceReceiveVerify]
  split_ifs <;> rfl

theorem rcdeviceReceive_singleton_step {ctx : rcdeviceResponseParseContext}
    {now b : Nat} (rest : List Nat)
    (hts : ¬(ctx.timeoutTimestamp ≠ 0 ∧ now > ctx.timeoutTimestamp))
    (hlen : ctx.recvRespLen + 1 ≠ ctx.expectedRespLen) :
    rcdeviceReceive (rcdeviceSingletonQueue ctx) now (b :: rest) =
      rcdeviceReceive
        (rcdeviceSingletonQueue
          { ctx with
            recvBuf := fun i => if i = ctx.recvRespLen then b % 256
              else ctx.recvBuf i,
            recvRespLen := ctx.recvRespLen + 1 }) now rest := by
  have h1 := @getWaitingResponse_receivable (rcdeviceSingletonQueue ctx)
    now (singleton_not_guard ctx) hts
  have hbuf : (rcdeviceSingletonQueue ctx).buffer
      (rcdeviceSingletonQueue ctx).headPos = ctx := rfl
  rw [hbuf] at h1
  simp only [rcdeviceReceive, h1]
  rw [if_neg hlen, setHead_singleton]
  simp

theorem rcdeviceReceive_singleton_complete {ctx : rcdeviceResponseParseContext}
    {now b : Nat}
    (hts : ¬(ctx.timeoutTimestamp ≠ 0 ∧ now > ctx.timeoutTimestamp))
    (hlen : ctx.recvRespLen + 1 = ctx.expectedRespLen) :
    rcdeviceReceive (rcdeviceSingletonQueue ctx) now [b] =
      ((rcdeviceRespCtxQueueShift
          (rcdeviceSingletonQueue
            (rcdeviceReceiveVerify
              { ctx with
                recvBuf := fun i => if i = ctx.recvRespLen then b % 256
                  else ctx.recvBuf i,
                recvRespLen := ctx.recvRespLen + 1 }))).2,
       (if ctx.hasParser then
          [RcdeviceEvent.callback ctx.command
            (rcdeviceReceiveVerify
              { ctx with
                recvBuf := fun i => if i = ctx.recvRespLen then b % 256
                  else ctx.recvBuf i,
                recvRespLen := ctx.recvRespLen + 1 }).result]
        else []),
       []) := by
  have h1 := @getWaitingResponse_receivable (rcdeviceSingletonQueue ctx)
    now (singleton_not_guard ctx) hts
  have hbuf : (rcdeviceSingletonQueue ctx).buffer
      (rcdeviceSingletonQueue ctx).headPos = ctx := rfl
  rw [hbuf] at h1
  simp only [rcdeviceReceive, h1]
  rw [if_pos hlen, setHead_singleton]
  rw [getWaitingResponse_stop (Or.inl (shift_singleton_itemCount _))]
  rw [rcdeviceReceiveVerify_hasParser, rcdeviceReceiveVerify_command]
  simp

/-- **C4**: for a receivable head context using protocol version 1.0 whose
next byte reaches the expected length, the engine validates by folding
`crc8_dvb_s2` over every received byte — the accumulated prefix plus the
trailing (checksum) byte just appended — and the callback reports success if
and only if the running CRC is zero, otherwise checksum-failure; the context
is then popped. -/
theorem claim_C4_variantB_validation (ctx : rcdeviceResponseParseContext)
    (now b : Nat)
    (hts : ¬(ctx.timeoutTimestamp ≠ 0 ∧ now > ctx.timeoutTimestamp))
    (hver : ctx.protocolVer = RCDEVICE_PROTOCOL_VERSION_1_0)
    (hlen : ctx.recvRespLen + 1 = ctx.expectedRespLen) :
    (rcdeviceReceive (rcdeviceSingletonQueue ctx) now [b]).2.1 =
      (if ctx.hasParser then
        [RcdeviceEvent.callback ctx.command
          (if (((List.range ctx.recvRespLen).map ctx.recvBuf) ++
              [b % 256]).foldl crc8_dvb_s2 0 = 0
           then RCDEVICE_RESP_SUCCESS
           else RCDEVICE_RESP_INCORRECT_CRC)]
       else []) ∧
    (rcdeviceReceive (rcdeviceSingletonQueue ctx) now [b]).1.itemCount = 0 := by
  rw [rcdeviceReceive_singleton_complete hts hlen]
  constructor
  · have hv : ({ ctx with
        recvBuf := fun i => if i = ctx.recvRespLen then b % 256
          else ctx.recvBuf i,
        recvRespLen := ctx.recvRespLen + 1 } :
        rcdeviceResponseParseContext).protocolVer =
        RCDEVICE_PROTOCOL_VERSION_1_0 := hver
    rw [rcdeviceReceiveVerify_v10 hv]
    simp only []
    rw [range_map_update]
  · exact shift_singleton_itemCount _

theorem claim_C4_witness :
    (¬((rcdeviceDemoRetryCtx.timeoutTimestamp ≠ 0 ∧
        4 > rcdeviceDemoRetryCtx.timeoutTimestamp))) ∧
    (rcdeviceDemoRetryCtx.protocolVer = RCDEVICE_PROTOCOL_VERSION_1_0) ∧
    ({ rcdeviceDemoRetryCtx with recvRespLen := 1 :
        rcdeviceResponseParseContext }.recvRespLen + 1 =
      { rcdeviceDemoRetryCtx with recvRespLen := 1 :
        rcdeviceResponseParseContext }.expectedRespLen) ∧
    (rcdeviceReceive (rcdeviceSingletonQueue
        { rcdeviceDemoRetryCtx with recvRespLen := 1 }) 4 [7]).2.1 =
      (if ({ rcdeviceDemoRetryCtx with recvRespLen := 1 :
          rcdeviceResponseParseContext }).hasParser then
        [RcdeviceEvent.callback
          ({ rcdeviceDemoRetryCtx with recvRespLen := 1 :
            rcdeviceResponseParseContext }).command
          (if (((List.range ({ rcdeviceDemoRetryCtx with recvRespLen := 1 :
                rcdeviceResponseParseContext }).recvRespLen).map
              ({ rcdeviceDemoRetryCtx with recvRespLen := 1 :
                rcdeviceResponseParseContext }).recvBuf) ++
              [7 % 256]).foldl crc8_dvb_s2 0 = 0
           then RCDEVICE_RESP_SUCCESS
           else RCDEVICE_RESP_INCORRECT_CRC)]
       else []) :=
  ⟨by decide, rfl, by decide,
   (claim_C4_variantB_validation
     { rcdeviceDemoRetryCtx with recvRespLen := 1 } 4 7
     (by decide) rfl (by decide)).1⟩

set_option maxRecDepth 100000 in
theorem calcCRC_alter_ne : ∀ b, b < 256 → b ≠ 0x99 →
    calcCRCFromData [1, 2, 3, b] ≠ calcCRCFromData [1, 2, 3, 0x99] % 256 := by
  decide

/-- Feeding the legacy 5-byte reply `[1, 2, 3, storedCRC, x]` one byte at a
time into a waiting RCSPLIT context: the callback fires with the outcome of
comparing `calcCRCFromData` of the swapped first four bytes `[1, 2, 3, x]`
against the stored checksum byte. -/
theorem rcsplit_run (x : Nat) :
    (rcdeviceReceive (rcdeviceSingletonQueue rcdeviceDemoRcsplitCtx) 0
        [1, 2, 3, calcCRCFromData [1, 2, 3, 0x99], x]).2.1 =
      [RcdeviceEvent.callback 3
        (if calcCRCFromData [1, 2, 3, x % 256] =
            calcCRCFromData [1, 2, 3, 0x99] % 256
         then RCDEVICE_RESP_SUCCESS
         else RCDEVICE_RESP_INCORRECT_CRC)] := by
  have s1 : rcdeviceReceive (rcdeviceSingletonQueue rcdeviceDemoRcsplitCtx) 0
      [1, 2, 3, calcCRCFromData [1, 2, 3, 0x99], x] =
      rcdeviceReceive (rcdeviceSingletonQueue
        { command := 3, paramData := [], paramDataLen := 0,
          expectedRespLen := 5,
          recvBuf := fun i => if i = 0 then 1 else 0, recvRespLen := 1,
          timeout := 0, maxRetryTimes := 0, timeoutTimestamp := 0,
          protocolVer := RCDEVICE_PROTOCOL_RCSPLIT_VERSION,
          result := RCDEVICE_RESP_SUCCESS, hasParser := true,
          deviceOpen := true }) 0
        [2, 3, calcCRCFromData [1, 2, 3, 0x99], x] :=
    rcdeviceReceive_singleton_step _ (by decide) (by decide)
  have s2 : rcdeviceReceive (rcdeviceSingletonQueue
      { command := 3, paramData := [], paramDataLen := 0,
        expectedRespLen := 5,
        recvBuf := fun i => if i = 0 then 1 else 0, recvRespLen := 1,
        timeout := 0, maxRetryTimes := 0, timeoutTimestamp := 0,
        protocolVer := RCDEVICE_PROTOCOL_RCSPLIT_VERSION,
        result := RCDEVICE_RESP_SUCCESS, hasParser := true,
        deviceOpen := true }) 0
      [2, 3, calcCRCFromData [1, 2, 3, 0x99], x] =
      rcdeviceReceive (rcdeviceSingletonQueue
        { command := 3, paramData := [], paramDataLen := 0,
          expectedRespLen := 5,
          recvBuf := fun i => if i = 1 then 2 else if i = 0 then 1 else 0,
          recvRespLen := 2,
          timeout := 0, maxRetryTimes := 0, timeoutTimestamp := 0,
          protocolVer := RCDEVICE_PROTOCOL_RCSPLIT_VERSION,
          result := RCDEVICE_RESP_SUCCESS, hasParser := true,
          deviceOpen := true }) 0
        [3, calcCRCFromData [1, 2, 3, 0x99], x] :=
    rcdeviceReceive_singleton_step _ (by decide) (by decide)
  have s3 : rcdeviceReceive (rcdeviceSingletonQueue
      { command := 3, paramData := [], paramDataLen := 0,
        expectedRespLen := 5,
        recvBuf := fun i => if i = 1 then 2 else if i = 0 then 1 else 0,
        recvRespLen := 2,
        timeout := 0, maxRetryTimes := 0, timeoutTimestamp := 0,
        protocolVer := RCDEVICE_PROTOCOL_RCSPLIT_VERSION,
        result := RCDEVICE_RESP_SUCCESS, hasParser := true,
        deviceOpen := true }) 0
      [3, calcCRCFromData [1, 2, 3, 0x99], x] =
      rcdeviceReceive (rcdeviceSingletonQueue
        { command := 3, paramData := [], paramDataLen := 0,
          expectedRespLen := 5,
          recvBuf := fun i => if i = 2 then 3 else if i = 1 then 2
            else if i = 0 then 1 else 0,
          recvRespLen := 3,
          timeout := 0, maxRetryTimes := 0, timeoutTimestamp := 0,
          protocolVer := RCDEVICE_PROTOCOL_RCSPLIT_VERSION,
          result := RCDEVICE_RESP_SUCCESS, hasParser := true,
          deviceOpen := true }) 0
        [calcCRCFromData [1, 2, 3, 0x99], x] :=
    rcdeviceReceive_singleton_step _ (by decide) (by decide)
  have s4 : rcdeviceReceive (rcdeviceSingletonQueue
      { command := 3, paramData := [], paramDataLen := 0,
        expectedRespLen := 5,
        recvBuf := fun i => if i = 2 then 3 else if i = 1 then 2
          else if i = 0 then 1 else 0,
        recvRespLen := 3,
        timeout := 0, maxRetryTimes := 0, timeoutTimestamp := 0,
        protocolVer := RCDEVICE_PROTOCOL_RCSPLIT_VERSION,
        result := RCDEVICE_RESP_SUCCESS, hasParser := true,
        deviceOpen := true }) 0
      [calcCRCFromData [1, 2, 3, 0x99], x] =
      rcdeviceReceive (rcdeviceSingletonQueue
        { command := 3, paramData := [], paramDataLen := 0,
          expectedRespLen := 5,
          recvBuf := fun i => if i = 3 then calcCRCFromData [1, 2, 3, 0x99] % 256
            else if i = 2 then 3 else if i = 1 then 2
            else if i = 0 then 1 else 0,
          recvRespLen := 4,
          timeout := 0, maxRetryTimes := 0, timeoutTimestamp := 0,
          protocolVer := RCDEVICE_PROTOCOL_RCSPLIT_VERSION,
          result := RCDEVICE_RESP_SUCCESS, hasParser := true,
          deviceOpen := true }) 0
        [x] :=
    rcdeviceReceive_singleton_step _ (by decide) (by decide)
  have s5 : rcdeviceReceive (rcdeviceSingletonQueue
      { command := 3, paramData := [], paramDataLen := 0,
        expectedRespLen := 5,
        recvBuf := fun i => if i = 3 then calcCRCFromData [1, 2, 3, 0x99] % 256
          else if i = 2 then 3 else if i = 1 then 2
          else if i = 0 then 1 else 0,
        recvRespLen := 4,
        timeout := 0, maxRetryTimes := 0, timeoutTimestamp := 0,
        protocolVer := RCDEVICE_PROTOCOL_RCSPLIT_VERSION,
        result := RCDEVICE_RESP_SUCCESS, hasParser := true,
        deviceOpen := true }) 0 [x] =
      ((rcdeviceRespCtxQueueShift
          (rcdeviceSingletonQueue
            (rcdeviceReceiveVerify
              { command := 3, paramData := [], paramDataLen := 0,
                expectedRespLen := 5,
                recvBuf := fun i => if i = 4 then x % 256
                  else if i = 3 then calcCRCFromData [1, 2, 3, 0x99] % 256
                  else if i = 2 then 3 else if i = 1 then 2
                  else if i = 0 then 1 else 0,
                recvRespLen := 5,
                timeout := 0, maxRetryTimes := 0, timeoutTimestamp := 0,
                protocolVer := RCDEVICE_PROTOCOL_RCSPLIT_VERSION,
                result := RCDEVICE_RESP_SUCCESS, hasParser := true,
                deviceOpen := true }))).2,
       [RcdeviceEvent.callback 3
         (rcdeviceReceiveVerify
           { command := 3, paramData := [], paramDataLen := 0,
             expectedRespLen := 5,
             recvBuf := fun i => if i = 4 then x % 256
               else if i = 3 then calcCRCFromData [1, 2, 3, 0x99] % 256
               else if i = 2 then 3 else if i = 1 then 2
               else if i = 0 then 1 else 0,
             recvRespLen := 5,
             timeout := 0, maxRetryTimes := 0, timeoutTimestamp := 0,
             protocolVer := RCDEVICE_PROTOCOL_RCSPLIT_VERSION,
             result := RCDEVICE_RESP_SUCCESS, hasParser := true,
             deviceOpen := true }).result],
       []) :=
    rcdeviceReceive_singleton_complete (by decide) (by decide)
  rw [s1, s2, s3, s4, s5]
  rw [rcdeviceReceiveVerify]
  rw [show List.range 4 = [0, 1, 2, 3] from by decide]
  simp [RCDEVICE_PROTOCOL_RCSPLIT_VERSION]

set_option maxRecDepth 100000 in
/-- **C5**: for a context using the legacy RCSPLIT framing, validation first
replaces the byte at index 3 of the receive buffer with the byte at index 4,
then compares `calcCRCFromData` (8-bit CRC, polynomial 0x31, non-reflected,
MSB-first, initial value 0) of the first four post-swap bytes against the
original pre-swap byte at index 3; concretely, feeding
`[0x01, 0x02, 0x03, CRC, 0x99]` with `CRC = calcCRCFromData [1, 2, 3, 0x99]`
through the engine reports success, and altering the trailing `0x99` to any
other byte reports checksum-failure. -/
theorem claim_C5_variantA_validation :
    (∀ ctx : rcdeviceResponseParseContext,
      ctx.protocolVer = RCDEVICE_PROTOCOL_RCSPLIT_VERSION →
      rcdeviceReceiveVerify ctx =
        { ctx with
          recvBuf := fun i => if i = 3 then ctx.recvBuf 4 else ctx.recvBuf i,
          result :=
            if calcCRCFromData ((List.range 4).map
                (fun i => if i = 3 then ctx.recvBuf 4 else ctx.recvBuf i)) =
                ctx.recvBuf 3
            then RCDEVICE_RESP_SUCCESS
            else RCDEVICE_RESP_INCORRECT_CRC }) ∧
    ((rcdeviceReceive (rcdeviceSingletonQueue rcdeviceDemoRcsplitCtx) 0
        [1, 2, 3, calcCRCFromData [1, 2, 3, 0x99], 0x99]).2.1 =
      [RcdeviceEvent.callback 3 RCDEVICE_RESP_SUCCESS]) ∧
    (∀ b, b < 256 → b ≠ 0x99 →
      (rcdeviceReceive (rcdeviceSingletonQueue rcdeviceDemoRcsplitCtx) 0
          [1, 2, 3, calcCRCFromData [1, 2, 3, 0x99], b]).2.1 =
        [RcdeviceEvent.callback 3 RCDEVICE_RESP_INCORRECT_CRC]) := by
  refine ⟨?_, ?_, ?_⟩
  · intro ctx h
    exact rcdeviceReceiveVerify_rcsplit h
  · rw [rcsplit_run]
    decide
  · intro b hb hne
    rw [rcsplit_run, Nat.mod_eq_of_lt hb, if_neg (calcCRC_alter_ne b hb hne)]

theorem claim_C5_witness :
    ((0 : Nat) < 256) ∧ ((0 : Nat) ≠ 0x99) ∧
    (rcdeviceReceive (rcdeviceSingletonQueue rcdeviceDemoRcsplitCtx) 0
        [1, 2, 3, calcCRCFromData [1, 2, 3, 0x99], 0]).2.1 =
      [RcdeviceEvent.callback 3 RCDEVICE_RESP_INCORRECT_CRC] :=
  ⟨by decide, by decide,
   claim_C5_variantA_validation.2.2 0 (by decide) (by decide)⟩

/-! ### Receive-buffer bounds (C1) -/

theorem getRespLen_le_five : ∀ cmd, runcamDeviceGetRespLen cmd ≤ 5 := by
  intro cmd
  cases hfind : expectedResponsesLength.find? (fun p => p.1 == cmd) with
  | none => simp [runcamDeviceGetRespLen, hfind]
  | some p =>
    have hp := List.mem_of_find?_eq_some hfind
    simp only [runcamDeviceGetRespLen, hfind, Option.map_some, Option.getD_some]
    simp only [expectedResponsesLength, List.mem_cons, List.mem_singleton,
      List.not_mem_nil, or_false] at hp
    rcases hp with h | h | h | h <;> subst h <;> decide

/-- A context whose `expectedRespLen` is 0 and whose deadline is the
no-timeout sentinel: stray bytes are accumulated but the completion test
`recvRespLen == expectedRespLen` never fires after an append, so the context
is never popped and no callback event is ever emitted. -/
theorem zeroLen_never_completes :
    ∀ (bytes : List Nat) (now : Nat) (ctx : rcdeviceResponseParseContext),
      ctx.expectedRespLen = 0 → ctx.timeoutTimestamp = 0 →
      (rcdeviceReceive (rcdeviceSingletonQueue ctx) now bytes).1.itemCount = 1 ∧
      (rcdeviceReceive (rcdeviceSingletonQueue ctx) now bytes).2.1 = [] := by
  intro bytes
  induction bytes with
  | nil =>
    intro now ctx hlen hts
    have h1 := @getWaitingResponse_receivable (rcdeviceSingletonQueue ctx)
      now (singleton_not_guard ctx) (fun h => h.1 hts)
    rw [rcdeviceReceive_nil, h1]
    exact ⟨rfl, rfl⟩
  | cons b rest ih =>
    intro now ctx hlen hts
    rw [rcdeviceReceive_singleton_step rest (fun h => h.1 hts)
      (by rw [hlen]; omega)]
    exact ih now _ hlen hts

/-- **C1 (counterexample)**: a head context with `expectedRespLen = 0` that
sees one stray byte ends up with `recvRespLen = 1 > 0 = expectedRespLen`, so
the claimed bound `receivedLength ≤ expectedResponseLength` is violated by the
receive engine (the byte is written at index 0, at — not below — the expected
length). -/
theorem claim_C1_counterexample :
    ¬(((rcdeviceReceive (rcdeviceSingletonQueue
          { command := 1, paramData := [], paramDataLen := 0,
            expectedRespLen := 0, recvBuf := fun _ => 0, recvRespLen := 0,
            timeout := 0, maxRetryTimes := 0, timeoutTimestamp := 0,
            protocolVer := RCDEVICE_PROTOCOL_VERSION_1_0,
            result := RCDEVICE_RESP_SUCCESS, hasParser := true,
            deviceOpen := true }) 0 [0x42]).1.buffer 0).recvRespLen ≤
      ((rcdeviceReceive (rcdeviceSingletonQueue
          { command := 1, paramData := [], paramDataLen := 0,
            expectedRespLen := 0, recvBuf := fun _ => 0, recvRespLen := 0,
            timeout := 0, maxRetryTimes := 0, timeoutTimestamp := 0,
            protocolVer := RCDEVICE_PROTOCOL_VERSION_1_0,
            result := RCDEVICE_RESP_SUCCESS, hasParser := true,
            deviceOpen := true }) 0 [0x42]).1.buffer 0).expectedRespLen) := by
  have hstep : rcdeviceReceive (rcdeviceSingletonQueue
      { command := 1, paramData := [], paramDataLen := 0,
        expectedRespLen := 0, recvBuf := fun _ => 0, recvRespLen := 0,
        timeout := 0, maxRetryTimes := 0, timeoutTimestamp := 0,
        protocolVer := RCDEVICE_PROTOCOL_VERSION_1_0,
        result := RCDEVICE_RESP_SUCCESS, hasParser := true,
        deviceOpen := true }) 0 [0x42] =
      rcdeviceReceive (rcdeviceSingletonQueue
        { command := 1, paramData := [], paramDataLen := 0,
          expectedRespLen := 0,
          recvBuf := fun i => if i = 0 then 0x42 else 0, recvRespLen := 1,
          timeout := 0, maxRetryTimes := 0, timeoutTimestamp := 0,
          protocolVer := RCDEVICE_PROTOCOL_VERSION_1_0,
          result := RCDEVICE_RESP_SUCCESS, hasParser := true,
          deviceOpen := true }) 0 [] :=
    rcdeviceReceive_singleton_step _ (by decide) (by decide)
  rw [hstep, rcdeviceReceive_nil,
    getWaitingResponse_receivable (singleton_not_guard _) (by decide)]
  decide

/-- **C1 (amended)**: restricted to contexts whose expected response length is
at least 1 — which covers every context the module itself enqueues, since all
commands sent through the send path appear in the length table — the bound
holds at every point: every queued context satisfies
`recvRespLen < expectedRespLen ≤ buffer capacity`, the invariant is preserved
by the whole receive engine and by the send path, and the byte appended on a
poll tick goes to index `recvRespLen` of the receivable head, which the
invariant keeps strictly below `expectedRespLen` (and so below the buffer
capacity).  A context whose `expectedRespLen` is 0 never completes via the
receive path — but it does accumulate stray bytes past its expected length,
which is exactly where the original claim fails. -/
theorem claim_C1_receive_bounds :
    (∀ (queue : rcdeviceWaitingResponseQueue) (now : Nat) (bytes : List Nat),
      rcdeviceQueueWF queue →
      (∀ c ∈ rcdeviceQueueList queue, rcdeviceCtxInv c) →
      rcdeviceQueueWF (rcdeviceReceive queue now bytes).1 ∧
      (∀ c ∈ rcdeviceQueueList (rcdeviceReceive queue now bytes).1,
        rcdeviceCtxInv c)) ∧
    (∀ (queue : rcdeviceWaitingResponseQueue) (now : Nat),
      rcdeviceQueueWF queue →
      (∀ c ∈ rcdeviceQueueList queue, rcdeviceCtxInv c) →
      ∀ c, (getWaitingResponse queue now).2.1 = some c →
        c.recvRespLen < c.expectedRespLen ∧
        c.expectedRespLen ≤ RCDEVICE_PROTOCOL_MAX_PACKET_SIZE) ∧
    (∀ (queue : rcdeviceWaitingResponseQueue) (now : Nat) (deviceOpen : Bool)
        (commandID : Nat) (paramData : List Nat)
        (paramDataLen tiemout : Nat) (maxRetryTimes : Int) (hasParser : Bool),
      runcamDeviceGetRespLen commandID ≠ 0 →
      rcdeviceQueueWF queue →
      (∀ c ∈ rcdeviceQueueList queue, rcdeviceCtxInv c) →
      rcdeviceQueueWF (runcamDeviceSendRequestAndWaitingResp queue now
        deviceOpen commandID paramData paramDataLen tiemout maxRetryTimes
        hasParser).1 ∧
      (∀ c ∈ rcdeviceQueueList (runcamDeviceSendRequestAndWaitingResp queue
          now deviceOpen commandID paramData paramDataLen tiemout maxRetryTimes
          hasParser).1, rcdeviceCtxInv c)) ∧
    (∀ (bytes : List Nat) (now : Nat) (ctx : rcdeviceResponseParseContext),
      ctx.expectedRespLen = 0 → ctx.timeoutTimestamp = 0 →
      (rcdeviceReceive (rcdeviceSingletonQueue ctx) now
          bytes).1.itemCount = 1 ∧
      (rcdeviceReceive (rcdeviceSingletonQueue ctx) now bytes).2.1 = []) := by
  have hretry : ∀ (c : rcdeviceResponseParseContext) (t : Nat),
      rcdeviceCtxInv c →
      rcdeviceCtxInv
        { c with
          timeoutTimestamp := t,
          maxRetryTimes := c.maxRetryTimes - 1 } := fun c t h => h
  have happend : ∀ (c : rcdeviceResponseParseContext) (b : Nat),
      rcdeviceCtxInv c → c.recvRespLen + 1 ≠ c.expectedRespLen →
      rcdeviceCtxInv
        { c with
          recvBuf := fun i => if i = c.recvRespLen then b else c.recvBuf i,
          recvRespLen := c.recvRespLen + 1 } := by
    intro c b h hne
    obtain ⟨h1, h2⟩ := h
    exact ⟨by show c.recvRespLen + 1 < c.expectedRespLen; omega, h2⟩
  refine ⟨?_, ?_, ?_, ?_⟩
  · intro queue now bytes hWF hP
    exact rcdeviceReceive_preserves rcdeviceCtxInv hretry happend bytes queue
      now hWF hP
  · intro queue now hWF hP c hc
    exact ((getWaitingResponse_spec rcdeviceCtxInv hretry queue.itemCount
      queue now rfl hWF hP).2.2 c hc).2.2
  · intro queue now deviceOpen commandID paramData paramDataLen tiemout
      maxRetryTimes hasParser hcmd hWF hP
    by_cases hq : queue.itemCount + 1 > MAX_WAITING_RESPONSES ∨
        queue.tailPos ≥ MAX_WAITING_RESPONSES
    · have heq : (runcamDeviceSendRequestAndWaitingResp queue now deviceOpen
          commandID paramData paramDataLen tiemout maxRetryTimes
          hasParser).1 = queue := by
        show (rcdeviceRespCtxQueuePushRespCtx queue _).2 = queue
        rw [rcdeviceRespCtxQueuePushRespCtx, if_pos hq]
      rw [heq]
      exact ⟨hWF, hP⟩
    · have hlt : queue.itemCount < MAX_WAITING_RESPONSES := by
        push_neg at hq
        omega
      have hpush := queueList_push hWF hlt (runcamDeviceMakeRespCtx now
        deviceOpen commandID paramData paramDataLen tiemout maxRetryTimes
        hasParser)
      constructor
      · exact queueWF_push hWF _
      · intro c hc
        have heq : rcdeviceQueueList (runcamDeviceSendRequestAndWaitingResp
            queue now deviceOpen commandID paramData paramDataLen tiemout
            maxRetryTimes hasParser).1 = rcdeviceQueueList queue ++
            [runcamDeviceMakeRespCtx now deviceOpen commandID paramData
              paramDataLen tiemout maxRetryTimes hasParser] := hpush.2
        rw [heq] at hc
        rcases List.mem_append.mp hc with hc | hc
        · exact hP c hc
        · rw [List.mem_singleton] at hc
          subst hc
          constructor
          · show 0 < runcamDeviceGetRespLen commandID
            omega
          · show runcamDeviceGetRespLen commandID ≤
              RCDEVICE_PROTOCOL_MAX_PACKET_SIZE
            have := getRespLen_le_five commandID
            simp only [RCDEVICE_PROTOCOL_MAX_PACKET_SIZE]
            omega
  · exact zeroLen_never_completes

theorem claim_C1_witness :
    rcdeviceQueueWF rcdeviceEmptyQueue ∧
    (∀ c ∈ rcdeviceQueueList rcdeviceEmptyQueue, rcdeviceCtxInv c) ∧
    (runcamDeviceGetRespLen RCDEVICE_PROTOCOL_COMMAND_GET_DEVICE_INFO ≠ 0) ∧
    rcdeviceQueueWF (runcamDeviceSendRequestAndWaitingResp rcdeviceEmptyQueue
      0 true RCDEVICE_PROTOCOL_COMMAND_GET_DEVICE_INFO [] 0 5000 0 true).1 :=
  ⟨queueWF_empty,
   by simp [rcdeviceQueueList, rcdeviceEmptyQueue],
   by decide,
   (claim_C1_receive_bounds.2.2.1 rcdeviceEmptyQueue 0 true
     RCDEVICE_PROTOCOL_COMMAND_GET_DEVICE_INFO [] 0 5000 0 true (by decide)
     queueWF_empty
     (by simp [rcdeviceQueueList, rcdeviceEmptyQueue])).1⟩

end Rcdevice
